import Mathlib

/-!
Shallow embedding of the casync streaming archive encoder (src/caencoder.c,
src/util.h).  The encoder walks a POSIX subtree and emits a byte-exact
archive through a pull-based step/get_data interface.  Machine integers are
modelled as Nat with explicit `% 2^64` where uint64 overflow matters.
Byte strings (file names, symlink targets, buffers) are `List Nat`.
The OS surface (open, fstat, scandir, readlink, ioctl, read) is modelled by
an abstract in-memory filesystem object carried alongside each descriptor;
system calls therefore always succeed and short reads do not occur, which
matches the stable-snapshot assumption of the code.  Out-of-memory paths
(-ENOMEM) are likewise not modelled.  assert() calls in the source are
preconditions guaranteed by the callers and are not re-checked here.
-/

namespace Casync

/-! ### Numeric limits and errno values -/

def U64 : Nat := 2 ^ 64

def UINT16_MAX : Nat := 65535

def UINT32_MAX : Nat := 4294967295

def UINT64_MAX : Nat := U64 - 1

def ENOENT : Int := 2

def EIO : Int := 5

def E2BIG : Int := 7

def ENOMEM : Int := 12

def EBUSY : Int := 16

def ENOTDIR : Int := 20

def EINVAL : Int := 22

def ENOTTY : Int := 25

def EUNATCH : Int := 49

def EBADFD : Int := 77

def EILSEQ : Int := 84

def EPROTONOSUPPORT : Int := 93

def EOPNOTSUPP : Int := 95

/-! ### File mode bits (sys/stat.h, octal) -/

def S_IFMT : Nat := 0o170000

def S_IFSOCK : Nat := 0o140000

def S_IFLNK : Nat := 0o120000

def S_IFREG : Nat := 0o100000

def S_IFBLK : Nat := 0o060000

def S_IFDIR : Nat := 0o040000

def S_IFCHR : Nat := 0o020000

def S_IFIFO : Nat := 0o010000

def S_ISREG (m : Nat) : Bool := m &&& S_IFMT == S_IFREG

def S_ISDIR (m : Nat) : Bool := m &&& S_IFMT == S_IFDIR

def S_ISLNK (m : Nat) : Bool := m &&& S_IFMT == S_IFLNK

def S_ISBLK (m : Nat) : Bool := m &&& S_IFMT == S_IFBLK

def S_ISCHR (m : Nat) : Bool := m &&& S_IFMT == S_IFCHR

def S_ISFIFO (m : Nat) : Bool := m &&& S_IFMT == S_IFIFO

def S_ISSOCK (m : Nat) : Bool := m &&& S_IFMT == S_IFSOCK

/-! ### Format registry constants

Modelled from the spec: caformat.h is not part of src/.  The spec (section 6)
fixes the record shapes (a 16-byte header of two little-endian u64 fields,
type then size, followed by the body fields listed there) but says the
numeric type values are drawn from a fixed registry.  Only their distinctness
is relevant to the encoder, so small distinct values are used here. -/

def CA_FORMAT_HELLO : Nat := 1

def CA_FORMAT_ENTRY : Nat := 2

def CA_FORMAT_PAYLOAD : Nat := 3

def CA_FORMAT_SYMLINK : Nat := 4

def CA_FORMAT_DEVICE : Nat := 5

def CA_FORMAT_GOODBYE : Nat := 6

def CA_FORMAT_HELLO_UUID_PART2 : Nat := 7

/-- Modelled from the spec: feature-flag bit values live in caformat.h, which
is not part of src/.  The spec (section 6) lists the twelve flags; distinct
single bits are assigned here in listing order. -/
def CA_FORMAT_WITH_UID_GID_16BIT : Nat := 1

def CA_FORMAT_WITH_UID_GID_32BIT : Nat := 2

def CA_FORMAT_WITH_TIMES_NSEC : Nat := 4

def CA_FORMAT_WITH_TIMES_USEC : Nat := 8

def CA_FORMAT_WITH_TIMES_SEC : Nat := 16

def CA_FORMAT_WITH_TIMES_2SEC : Nat := 32

def CA_FORMAT_WITH_PERMISSIONS : Nat := 64

def CA_FORMAT_WITH_READONLY : Nat := 128

def CA_FORMAT_WITH_SYMLINKS : Nat := 256

def CA_FORMAT_WITH_DEVICE_NODES : Nat := 512

def CA_FORMAT_WITH_FIFOS : Nat := 1024

def CA_FORMAT_WITH_SOCKETS : Nat := 2048

/-- Modelled from the spec: the OR of every defined feature flag; requesting
any bit outside it is rejected (spec section 6). -/
def CA_FORMAT_FEATURE_FLAGS_MAX : Nat := 4095

/-- Modelled from the spec: WITH_BEST is "the default convenience superset";
its exact composition is environment-defined, so the full mask is used. -/
def CA_FORMAT_WITH_BEST : Nat := 4095

/-! ### def.h constants

Modelled from the spec: def.h is not part of src/.  NODES_MAX is the
compile-time traversal depth bound, BUFFER_SIZE the payload read chunk
size; the claims do not depend on their exact values. -/

def NODES_MAX : Nat := 256

def BUFFER_SIZE : Nat := 65536

/-! ### util.h: timespec_to_nsec -/

/-- struct timespec; tv_sec is modelled as a non-negative count of seconds
since the epoch (the encoder casts it to uint64). -/
structure Timespec where
  tv_sec : Nat
  tv_nsec : Nat
deriving DecidableEq

/-- util.h lines 42-44: (uint64_t) t.tv_sec * 1000000000 + (uint64_t) t.tv_nsec,
in uint64 arithmetic. -/
def timespec_to_nsec (t : Timespec) : Nat :=
  (t.tv_sec * 1000000000 + t.tv_nsec) % U64

/-! ### stat snapshot -/

/-- The fields of struct stat that the encoder reads.  st_rdev is carried
directly as its major/minor decomposition, which is all the code uses. -/
structure Stat where
  st_mode : Nat
  st_size : Nat
  st_uid : Nat
  st_gid : Nat
  st_mtim : Timespec
  st_rdev_major : Nat
  st_rdev_minor : Nat
deriving DecidableEq

def zeroStat : Stat :=
  { st_mode := 0, st_size := 0, st_uid := 0, st_gid := 0,
    st_mtim := { tv_sec := 0, tv_nsec := 0 },
    st_rdev_major := 0, st_rdev_minor := 0 }

/-! ### Abstract filesystem

A descriptor in the model carries the object it refers to.  An FsObject
holds a stat snapshot plus the kind-specific data the system calls would
return: directory entries (name/object pairs), regular-file or device
content bytes, a symlink target, and the BLKGETSIZE sector count. -/

inductive FsObject : Type where
  | mk : Stat → List (List Nat × FsObject) → List Nat → List Nat → Nat → FsObject

def FsObject.stat : FsObject → Stat
  | .mk st _ _ _ _ => st

def FsObject.entries : FsObject → List (List Nat × FsObject)
  | .mk _ es _ _ _ => es

def FsObject.content : FsObject → List Nat
  | .mk _ _ c _ _ => c

def FsObject.target : FsObject → List Nat
  | .mk _ _ _ t _ => t

def FsObject.sectors : FsObject → Nat
  | .mk _ _ _ _ s => s

/-- Placeholder object for a freshly reserved child slot (the C code leaves
the slot's data zeroed until open-child fills it). -/
def FsObject.null : FsObject := .mk zeroStat [] [] [] 0

/-- Directory lookup by name, as openat/fstatat would resolve it. -/
def fsFind : List (List Nat × FsObject) → List Nat → Option FsObject
  | [], _ => none
  | (k, v) :: rest, name => if k = name then some v else fsFind rest name

/-! ### Encoder data model (caencoder.c lines 19-60) -/

/-- CaEncoderNode, lines 19-33.  fd is the OS descriptor number (-1 when
none); obj is the model's stand-in for what the descriptor refers to.
dirents none means not yet populated (NULL in C); deviceSize uses the
UINT64_MAX sentinel exactly as the code does. -/
structure CaEncoderNode where
  fd : Int
  stat : Stat
  obj : FsObject
  dirents : Option (List (List Nat))
  dirent_idx : Nat
  symlink_target : Option (List Nat)
  device_size : Nat

/-- CaEncoderState, lines 35-42. -/
inductive CaEncoderState where
  | init
  | hello
  | entry
  | postChild
  | goodbye
  | eof
deriving DecidableEq

/-- struct CaEncoder, lines 44-60.  nodes holds the live prefix
nodes[0..n_nodes-1]; n_nodes is its length. -/
structure CaEncoder where
  state : CaEncoderState
  feature_flags : Nat
  time_granularity : Nat
  nodes : List CaEncoderNode
  node_idx : Nat
  buffer : List Nat
  archive_offset : Nat
  payload_offset : Nat
  step_size : Nat

/-- Return codes of ca_encoder_step.  Modelled from the spec: caencoder.h is
not part of src/; the spec (section 4.3) names FINISHED, NEXT_FILE and DATA
as the non-negative codes, so distinct non-negative values are assigned. -/
def CA_ENCODER_FINISHED : Int := 0

def CA_ENCODER_NEXT_FILE : Int := 1

def CA_ENCODER_DATA : Int := 2

/-- Model artifact: returned when the step fuel runs out; negative and
distinct from every errno the code can produce.  Unreachable with fuel
larger than twice the stack depth. -/
def CA_ENCODER_OUT_OF_FUEL : Int := -1000

/-- ca_encoder_new, lines 62-73: zero-initialized (state INIT, empty stack),
flags default to WITH_BEST, time granularity to 1. -/
def ca_encoder_new : CaEncoder :=
  { state := .init
    feature_flags := CA_FORMAT_WITH_BEST
    time_granularity := 1
    nodes := []
    node_idx := 0
    buffer := []
    archive_offset := 0
    payload_offset := 0
    step_size := 0 }

/-- ca_encoder_node_free, lines 75-93: descriptors >= 3 are closed, smaller
ones are merely set aside (don't close the standard streams).  Returns the
descriptor that was closed, if any, together with the cleared node. -/
def ca_encoder_node_free (n : CaEncoderNode) : Option Int × CaEncoderNode :=
  let closed : Option Int := if n.fd ≥ 3 then some n.fd else none
  (closed,
   { fd := -1, stat := n.stat, obj := n.obj, dirents := none, dirent_idx := 0,
     symlink_target := none, device_size := UINT64_MAX })

/-- ca_encoder_unref, lines 95-108, restricted to its observable effect on
descriptors: every node in nodes[0..n_nodes-1] is freed, so the closed set
is the fds >= 3 among them. -/
def ca_encoder_unref_closed_fds (e : CaEncoder) : List Int :=
  e.nodes.filterMap fun n => (ca_encoder_node_free n).1

/-- ca_encoder_set_feature_flags, lines 110-146.  The null-encoder check is
not representable (the model passes encoders by value).  Unknown bits fail
with -EOPNOTSUPP; then 32-bit uid/gid wins over 16-bit, the
highest-resolution time flag wins and fixes the granularity (left at its
initial 0 when no time flag is present), and PERMISSIONS clears READONLY. -/
def ca_encoder_set_feature_flags (e : CaEncoder) (flags : Nat) : Int × CaEncoder :=
  let granularity : Nat := 0
  if flags &&& (UINT64_MAX ^^^ CA_FORMAT_FEATURE_FLAGS_MAX) ≠ 0 then
    (-EOPNOTSUPP, e)
  else
    let flags := if flags &&& CA_FORMAT_WITH_UID_GID_32BIT ≠ 0 then
        flags &&& (UINT64_MAX ^^^ CA_FORMAT_WITH_UID_GID_16BIT) else flags
    let (flags, granularity) :=
      if flags &&& CA_FORMAT_WITH_TIMES_NSEC ≠ 0 then
        (flags &&& (UINT64_MAX ^^^ (CA_FORMAT_WITH_TIMES_USEC ||| CA_FORMAT_WITH_TIMES_SEC ||| CA_FORMAT_WITH_TIMES_2SEC)), 1)
      else (flags, granularity)
    let (flags, granularity) :=
      if flags &&& CA_FORMAT_WITH_TIMES_USEC ≠ 0 then
        (flags &&& (UINT64_MAX ^^^ (CA_FORMAT_WITH_TIMES_SEC ||| CA_FORMAT_WITH_TIMES_2SEC)), 1000)
      else (flags, granularity)
    let (flags, granularity) :=
      if flags &&& CA_FORMAT_WITH_TIMES_SEC ≠ 0 then
        (flags &&& (UINT64_MAX ^^^ CA_FORMAT_WITH_TIMES_2SEC), 1000000000)
      else (flags, granularity)
    let granularity :=
      if flags &&& CA_FORMAT_WITH_TIMES_2SEC ≠ 0 then 2000000000 else granularity
    let flags := if flags &&& CA_FORMAT_WITH_PERMISSIONS ≠ 0 then
        flags &&& (UINT64_MAX ^^^ CA_FORMAT_WITH_READONLY) else flags
    (0, { e with feature_flags := flags, time_granularity := granularity })

/-- ca_encoder_set_base_fd, lines 158-183.  The caller supplies the
descriptor number and (in the model) the object it refers to; fstat is the
object's stat snapshot.  Only regular files, directories and block devices
are accepted as roots. -/
def ca_encoder_set_base_fd (e : CaEncoder) (fd : Int) (fs : FsObject) : Int × CaEncoder :=
  if fd < 0 then (-EINVAL, e)
  else if e.nodes.length > 0 then (-EBUSY, e)
  else
    let st := fs.stat
    if ¬ S_ISREG st.st_mode ∧ ¬ S_ISDIR st.st_mode ∧ ¬ S_ISBLK st.st_mode then
      (-ENOTTY, e)
    else
      (0, { e with
              nodes := [{ fd := fd, stat := st, obj := fs, dirents := none,
                          dirent_idx := 0, symlink_target := none,
                          device_size := UINT64_MAX }] })

/-- ca_encoder_current_node, lines 185-192. -/
def ca_encoder_current_node (e : CaEncoder) : Option CaEncoderNode :=
  e.nodes[e.node_idx]?

/-- ca_encoder_current_child_node, lines 194-201. -/
def ca_encoder_current_child_node (e : CaEncoder) : Option CaEncoderNode :=
  e.nodes[e.node_idx + 1]?

/-- ca_encoder_node_current_dirent, lines 203-212. -/
def ca_encoder_node_current_dirent (n : CaEncoderNode) : Option (List Nat) :=
  match n.dirents with
  | none => none
  | some l => l[n.dirent_idx]?

/-- scandir_filter, lines 214-229: filter out "." and ".." by the same byte
tests the code performs (46 is the dot). -/
def scandir_filter (name : List Nat) : Bool :=
  match name with
  | [] => true
  | b0 :: rest =>
    if b0 ≠ 46 then true
    else match rest with
      | [] => false
      | b1 :: rest2 =>
        if b1 ≠ 46 then true
        else rest2 ≠ []

/-- strcmp on null-terminated byte strings, as scandir_compare (lines
231-238) uses it: byte-wise, locale-independent; a shorter string compares
through its terminating 0. -/
def strcmp : List Nat → List Nat → Int
  | [], [] => 0
  | [], b :: _ => 0 - (b : Int)
  | a :: _, [] => (a : Int)
  | a :: as, b :: bs => if a = b then strcmp as bs else (a : Int) - (b : Int)

def strcmpInsert (x : List Nat) : List (List Nat) → List (List Nat)
  | [] => [x]
  | y :: ys => if strcmp x y ≤ 0 then x :: y :: ys else y :: strcmpInsert x ys

/-- The sort performed by scandirat with scandir_compare. -/
def strcmpSort : List (List Nat) → List (List Nat)
  | [] => []
  | x :: xs => strcmpInsert x (strcmpSort xs)

/-- ca_encoder_node_read_dirents, lines 240-260: lazily scan the directory,
filtering "." and ".." and sorting byte-wise. -/
def ca_encoder_node_read_dirents (n : CaEncoderNode) : Int × CaEncoderNode :=
  if n.dirents ≠ none then (0, n)
  else if ¬ S_ISDIR n.stat.st_mode then (-ENOTDIR, n)
  else if n.fd < 0 then (-EBADFD, n)
  else
    let names := strcmpSort ((n.obj.entries.map Prod.fst).filter scandir_filter)
    (1, { n with dirents := some names, dirent_idx := 0 })

/-- ca_encoder_node_read_device_size, lines 262-279: BLKGETSIZE returns the
512-byte sector count; the size is cached in bytes. -/
def ca_encoder_node_read_device_size (n : CaEncoderNode) : Int × CaEncoderNode :=
  if n.device_size ≠ UINT64_MAX then (0, n)
  else if ¬ S_ISBLK n.stat.st_mode then (-ENOTTY, n)
  else if n.fd < 0 then (-EBADFD, n)
  else (1, { n with device_size := (n.obj.sectors * 512) % U64 })

/-- ca_encoder_node_read_symlink, lines 281-325: resolve the link text of a
symlink child; the readlinkat doubling loop always terminates with the full
target in the model. -/
def ca_encoder_node_read_symlink (n : CaEncoderNode) (child : CaEncoderNode) :
    Int × CaEncoderNode :=
  if ¬ S_ISDIR n.stat.st_mode then (-ENOTDIR, child)
  else if n.fd < 0 then (-EBADFD, child)
  else if ¬ S_ISLNK child.stat.st_mode then (-ENOTTY, child)
  else if child.symlink_target ≠ none then (0, child)
  else (1, { child with symlink_target := some child.obj.target })

/-- ca_encoder_forget_children, lines 327-332: free all stack entries above
node_idx. -/
def ca_encoder_forget_children (e : CaEncoder) : CaEncoder :=
  { e with nodes := e.nodes.take (e.node_idx + 1) }

/-- ca_encoder_init_child, lines 334-352: reserve nodes[n_nodes] with no
descriptor and unknown device size; none when NODES_MAX is exceeded. -/
def ca_encoder_init_child (e : CaEncoder) : Option CaEncoder :=
  let e := ca_encoder_forget_children e
  if e.nodes.length ≥ NODES_MAX then none
  else some { e with
    nodes := e.nodes ++ [{ fd := -1, stat := zeroStat, obj := FsObject.null,
                           dirents := none, dirent_idx := 0,
                           symlink_target := none, device_size := UINT64_MAX }] }

/-- Model artifact: the descriptor number the OS hands back for a child
opened by the encoder.  Descriptor numbering is OS-chosen; the encoder only
relies on it being non-negative (and >= 3 for the closing policy), so the
model assigns 3 plus the child's stack index. -/
def childFdFor (idx : Nat) : Int := 3 + (idx : Int)

/-- ca_encoder_open_child, lines 354-410.  Looks the named entry up in the
current directory; regular files and directories are opened (valid fd),
other kinds only stat-ed; symlink children get their target resolved.  The
child slot stays reserved on a failed lookup, exactly as a failed
fstatat/openat leaves it in the C code. -/
def ca_encoder_open_child (e : CaEncoder) (de : List Nat) : Int × CaEncoder :=
  match ca_encoder_current_node e with
  | none => (-EUNATCH, e)
  | some n =>
    if ¬ S_ISDIR n.stat.st_mode then (-ENOTDIR, e)
    else if n.fd < 0 then (-EBADFD, e)
    else
      match ca_encoder_init_child e with
      | none => (-E2BIG, e)
      | some e =>
        let childIdx := e.nodes.length - 1
        match fsFind n.obj.entries de with
        | none => (-ENOENT, e)
        | some obj =>
          let st := obj.stat
          let shall_open := S_ISREG st.st_mode || S_ISDIR st.st_mode
          let child : CaEncoderNode :=
            { fd := if shall_open then childFdFor childIdx else -1,
              stat := st, obj := obj, dirents := none, dirent_idx := 0,
              symlink_target := none, device_size := UINT64_MAX }
          if S_ISLNK st.st_mode then
            let (r, child) := ca_encoder_node_read_symlink n child
            if r < 0 then (r, { e with nodes := e.nodes.set childIdx child })
            else (0, { e with nodes := e.nodes.set childIdx child })
          else
            (0, { e with nodes := e.nodes.set childIdx child })

/-- ca_encoder_enter_child, lines 412-429. -/
def ca_encoder_enter_child (e : CaEncoder) : Int × CaEncoder :=
  match e.nodes[e.node_idx + 1]? with
  | none => (-EINVAL, e)
  | some child =>
    if child.stat.st_mode = 0 then (-EINVAL, e)
    else if ¬ S_ISREG child.stat.st_mode ∧ ¬ S_ISDIR child.stat.st_mode then
      (-ENOTTY, e)
    else if child.fd < 0 then (-EINVAL, e)
    else (0, { e with node_idx := e.node_idx + 1 })

/-- ca_encoder_leave_child, lines 431-439. -/
def ca_encoder_leave_child (e : CaEncoder) : Int × CaEncoder :=
  if e.node_idx ≤ 0 then (0, e)
  else (1, { e with node_idx := e.node_idx - 1 })

/-- ca_encoder_node_get_payload_size, lines 441-459: st_size for regular
files, the cached/queried device size for block devices. -/
def ca_encoder_node_get_payload_size (n : CaEncoderNode) : Int × Nat × CaEncoderNode :=
  if S_ISREG n.stat.st_mode then (0, n.stat.st_size, n)
  else if S_ISBLK n.stat.st_mode then
    let (r, n) := ca_encoder_node_read_device_size n
    if r < 0 then (r, 0, n) else (0, n.device_size, n)
  else (-ENOTTY, 0, n)

/-- ca_encoder_enter_state, lines 461-470: switch state, drop the buffer,
reset payload_offset and step_size. -/
def ca_encoder_enter_state (e : CaEncoder) (s : CaEncoderState) : CaEncoder :=
  { e with state := s, buffer := [], payload_offset := 0, step_size := 0 }

/-- Write-back of a mutated node (the C code mutates through a pointer into
the nodes array). -/
def setNodeAt (e : CaEncoder) (i : Nat) (n : CaEncoderNode) : CaEncoder :=
  { e with nodes := e.nodes.set i n }

/-- ca_encoder_step_regular, lines 472-493. -/
def ca_encoder_step_regular (e : CaEncoder) (n : CaEncoderNode) : Int × CaEncoder :=
  let e := { e with buffer := [] }
  let (r, size, n) := ca_encoder_node_get_payload_size n
  let e := setNodeAt e e.node_idx n
  if r < 0 then (r, e)
  else if e.payload_offset ≥ size then
    (CA_ENCODER_FINISHED, ca_encoder_enter_state e .eof)
  else (CA_ENCODER_DATA, e)

/-- The HELLO-case tail of ca_encoder_step_directory (lines 537-552): no
further dirent means GOODBYE; otherwise open the next child and report
NEXT_FILE.  The POST_CHILD case and the ENTRY fall-through reach it after
advancing the dirent cursor. -/
def ca_encoder_step_dir_hello (e : CaEncoder) (n : CaEncoderNode) : Int × CaEncoder :=
  match ca_encoder_node_current_dirent n with
  | none => (CA_ENCODER_DATA, ca_encoder_enter_state e .goodbye)
  | some de =>
    let (r, e) := ca_encoder_open_child e de
    if r < 0 then (r, e)
    else (CA_ENCODER_NEXT_FILE, ca_encoder_enter_state e .entry)

mutual

/-- ca_encoder_step, lines 565-605.  The previously reported step_size is
consumed into payload_offset and archive_offset (uint64 additions), then
the for(;;) loop walks the state machine, moving up the stack on FINISHED.
The fuel argument bounds the recursion; it is a model artifact, and any
fuel larger than twice the stack depth plus a small constant suffices. -/
def ca_encoder_step (fuel : Nat) (e : CaEncoder) : Int × CaEncoder :=
  match fuel with
  | 0 => (CA_ENCODER_OUT_OF_FUEL, e)
  | fuel + 1 =>
    if e.state = .eof then (CA_ENCODER_FINISHED, e)
    else
      let e := { e with
        payload_offset := (e.payload_offset + e.step_size) % U64,
        archive_offset := (e.archive_offset + e.step_size) % U64,
        step_size := 0 }
      ca_encoder_step_loop fuel e

/-- The for(;;) loop body of ca_encoder_step (lines 578-601): dispatch on
the current node's kind, and on FINISHED leave the child and either re-enter
the loop in POST_CHILD or, at the root, forget residual children and report
FINISHED. -/
def ca_encoder_step_loop (fuel : Nat) (e : CaEncoder) : Int × CaEncoder :=
  match fuel with
  | 0 => (CA_ENCODER_OUT_OF_FUEL, e)
  | fuel + 1 =>
    match ca_encoder_current_node e with
    | none => (-EUNATCH, e)
    | some n =>
      let (r, e) :=
        if S_ISREG n.stat.st_mode || S_ISBLK n.stat.st_mode then
          ca_encoder_step_regular e n
        else if S_ISDIR n.stat.st_mode then
          ca_encoder_step_directory fuel e n
        else (-ENOTTY, e)
      if r ≠ CA_ENCODER_FINISHED then (r, e)
      else
        let (r, e) := ca_encoder_leave_child e
        if r = 0 then (CA_ENCODER_FINISHED, ca_encoder_forget_children e)
        else ca_encoder_step_loop fuel (ca_encoder_enter_state e .postChild)

/-- ca_encoder_step_directory, lines 495-563.  The ENTRY case falls through
to POST_CHILD for non-enterable kinds, POST_CHILD advances the dirent
cursor and falls through to HELLO, which opens the next child or moves to
GOODBYE; the helper below mirrors that fall-through chain. -/
def ca_encoder_step_directory (fuel : Nat) (e : CaEncoder) (n : CaEncoderNode) :
    Int × CaEncoder :=
  match fuel with
  | 0 => (CA_ENCODER_OUT_OF_FUEL, e)
  | fuel + 1 =>
    let (r, n) := ca_encoder_node_read_dirents n
    let e := setNodeAt e e.node_idx n
    if r < 0 then (r, e)
    else
      match e.state with
      | .init => (CA_ENCODER_DATA, ca_encoder_enter_state e .hello)
      | .entry =>
        (match ca_encoder_current_child_node e with
         | none => (-ENOTTY, e)
         | some child =>
           if S_ISDIR child.stat.st_mode || S_ISREG child.stat.st_mode then
             let (r, e) := ca_encoder_enter_child e
             if r < 0 then (r, e)
             else ca_encoder_step fuel (ca_encoder_enter_state e .init)
           else
             let n := { n with dirent_idx := n.dirent_idx + 1 }
             ca_encoder_step_dir_hello (setNodeAt e e.node_idx n) n)
      | .postChild =>
        let n := { n with dirent_idx := n.dirent_idx + 1 }
        ca_encoder_step_dir_hello (setNodeAt e e.node_idx n) n
      | .hello => ca_encoder_step_dir_hello e n
      | .goodbye => (CA_ENCODER_FINISHED, ca_encoder_enter_state e .eof)
      | .eof => (CA_ENCODER_OUT_OF_FUEL, e)

end

/-! ### Little-endian 64-bit serialization (htole64 / struct field layout)

Modelled from the spec: the record structs live in caformat.h, which is not
part of src/.  Section 6 fixes the layout: every record starts with a
16-byte header of two little-endian u64 fields (type, then size), and the
bodies are the u64 fields listed there, packed without padding; names and
symlink targets are null-terminated byte strings. -/

def le64Bytes (n : Nat) : List Nat :=
  [n % 256, n / 256 % 256, n / 65536 % 256, n / 16777216 % 256,
   n / 4294967296 % 256, n / 1099511627776 % 256,
   n / 281474976710656 % 256, n / 72057594037927936 % 256]

/-- Read a little-endian u64 out of a byte buffer at the given offset, as a
decoder (or read_le64 in util.h) would. -/
def readLe64 (l : List Nat) (off : Nat) : Nat :=
  match l.drop off with
  | b0 :: b1 :: b2 :: b3 :: b4 :: b5 :: b6 :: b7 :: _ =>
    b0 + 256 * b1 + 65536 * b2 + 16777216 * b3 + 4294967296 * b4 +
      1099511627776 * b5 + 281474976710656 * b6 + 72057594037927936 * b7
  | _ => 0

/-- sizeof(CaFormatHello): 16-byte header + uuid_part2 + feature_flags. -/
def sizeofCaFormatHello : Nat := 32

/-- offsetof(CaFormatEntry, name): 16-byte header + mode, uid, gid, mtime. -/
def offsetofCaFormatEntryName : Nat := 48

/-- offsetof(CaFormatPayload, data): just the 16-byte header. -/
def offsetofCaFormatPayloadData : Nat := 16

/-- offsetof(CaFormatSymlink, target): just the 16-byte header. -/
def offsetofCaFormatSymlinkTarget : Nat := 16

/-- sizeof(CaFormatDevice): 16-byte header + major + minor. -/
def sizeofCaFormatDevice : Nat := 32

/-- offsetof(CaFormatGoodbye, table): just the 16-byte header. -/
def offsetofCaFormatGoodbyeTable : Nat := 16

/-- ca_encoder_get_payload_data, lines 607-650: read the next chunk of raw
file or device bytes at the current payload offset; 0 at payload EOF, 1
with the chunk buffered otherwise.  A short read (the model's content being
shorter than the stated size) empties the buffer and fails with -EIO. -/
def ca_encoder_get_payload_data (e : CaEncoder) (n : CaEncoderNode) : Int × CaEncoder :=
  let (r, size, n) := ca_encoder_node_get_payload_size n
  let e := setNodeAt e e.node_idx n
  if r < 0 then (r, e)
  else if e.payload_offset ≥ size then (0, e)
  else if e.buffer.length > 0 then (1, e)
  else
    let k := min BUFFER_SIZE (size - e.payload_offset)
    let p := (n.obj.content.drop e.payload_offset).take k
    if p.length ≠ k then (- EIO, { e with buffer := [] })
    else (1, { e with buffer := p })

/-- Lines 667-672: the Hello record bytes: header {HELLO, 32}, the uuid
constant, and the canonical feature flags. -/
def ca_encoder_hello_buffer (flags : Nat) : List Nat :=
  le64Bytes CA_FORMAT_HELLO ++ le64Bytes sizeofCaFormatHello ++
  le64Bytes CA_FORMAT_HELLO_UUID_PART2 ++ le64Bytes flags

/-- ca_encoder_get_hello_data, lines 652-675. -/
def ca_encoder_get_hello_data (e : CaEncoder) : Int × CaEncoder :=
  if e.buffer.length > 0 then (1, e)
  else (1, { e with buffer := ca_encoder_hello_buffer e.feature_flags })

/-- Lines 734-735: mtime in nanoseconds, quantized by integer division and
multiplication with the time granularity.  When time_granularity is 0 the C
expression mtime / e->time_granularity is undefined behavior (division by
zero); Nat division by zero (yielding 0) stands in for it here. -/
def ca_encoder_entry_mtime (granularity : Nat) (mtim : Timespec) : Nat :=
  timespec_to_nsec mtim / granularity * granularity

/-- Lines 737-745: the emitted mode; symlinks are first forced to
S_IFLNK | 0777, then the flag-dependent masking is applied. -/
def ca_encoder_entry_mode (flags : Nat) (m : Nat) : Nat :=
  let mode := m
  let mode := if S_ISLNK mode then S_IFLNK ||| 0o777 else mode
  if flags &&& CA_FORMAT_WITH_PERMISSIONS ≠ 0 then
    mode &&& (S_IFMT ||| 0o7777)
  else if flags &&& CA_FORMAT_WITH_READONLY ≠ 0 then
    (mode &&& S_IFMT) |||
      (if mode &&& 0o222 ≠ 0 then (if S_ISDIR mode then 0o777 else 0o666)
       else (if S_ISDIR mode then 0o555 else 0o444))
  else mode &&& S_IFMT

/-- Lines 712-716: uid as emitted (the stat value when either width flag is
set, else 0). -/
def ca_encoder_entry_uid (flags : Nat) (st : Stat) : Nat :=
  if flags &&& (CA_FORMAT_WITH_UID_GID_16BIT ||| CA_FORMAT_WITH_UID_GID_32BIT) ≠ 0
  then st.st_uid else 0

/-- Lines 712-716: gid as emitted. -/
def ca_encoder_entry_gid (flags : Nat) (st : Stat) : Nat :=
  if flags &&& (CA_FORMAT_WITH_UID_GID_16BIT ||| CA_FORMAT_WITH_UID_GID_32BIT) ≠ 0
  then st.st_gid else 0

/-- Lines 772-801: the unaligned trailer that follows the Entry record and
name inside the same chunk: a PAYLOAD header for regular files, a SYMLINK
header plus null-terminated target for symlinks, a DEVICE record for
block/character devices, nothing otherwise. -/
def ca_encoder_entry_trailer (child : CaEncoderNode) : List Nat :=
  let target := child.symlink_target.getD []
  if S_ISREG child.stat.st_mode then
    le64Bytes CA_FORMAT_PAYLOAD ++
    le64Bytes ((offsetofCaFormatPayloadData + child.stat.st_size) % U64)
  else if S_ISLNK child.stat.st_mode then
    le64Bytes CA_FORMAT_SYMLINK ++
    le64Bytes (offsetofCaFormatSymlinkTarget + target.length + 1) ++
    target ++ [0]
  else if S_ISBLK child.stat.st_mode ∨ S_ISCHR child.stat.st_mode then
    le64Bytes CA_FORMAT_DEVICE ++ le64Bytes sizeofCaFormatDevice ++
    le64Bytes child.stat.st_rdev_major ++ le64Bytes child.stat.st_rdev_minor
  else []

/-- Lines 747-801: the complete Entry chunk as packed into the buffer:
header {ENTRY, 48 + strlen(name) + 1}, mode, uid, gid, mtime, the
null-terminated name, then the kind-specific trailer. -/
def ca_encoder_entry_buffer (flags granularity : Nat) (de : List Nat)
    (child : CaEncoderNode) : List Nat :=
  le64Bytes CA_FORMAT_ENTRY ++
  le64Bytes (offsetofCaFormatEntryName + de.length + 1) ++
  le64Bytes (ca_encoder_entry_mode flags child.stat.st_mode) ++
  le64Bytes (ca_encoder_entry_uid flags child.stat) ++
  le64Bytes (ca_encoder_entry_gid flags child.stat) ++
  le64Bytes (ca_encoder_entry_mtime granularity child.stat.st_mtim) ++
  de ++ [0] ++ ca_encoder_entry_trailer child

/-- ca_encoder_get_entry_data, lines 677-806: validate uid/gid and the
feature gates, then pack the Entry record, the null-terminated name and the
kind-specific unaligned trailer into the buffer (the field derivations and
the packing are the ca_encoder_entry_* helpers above). -/
def ca_encoder_get_entry_data (e : CaEncoder) (n : CaEncoderNode) : Int × CaEncoder :=
  if e.buffer.length > 0 then (1, e)
  else
    match ca_encoder_node_current_dirent n with
    | none => (-EILSEQ, e)
    | some de =>
      match ca_encoder_current_child_node e with
      | none => (-EILSEQ, e)
      | some child =>
        if child.stat.st_uid = UINT16_MAX ∨ child.stat.st_uid = UINT32_MAX ∨
           child.stat.st_gid = UINT16_MAX ∨ child.stat.st_gid = UINT32_MAX then
          (-EINVAL, e)
        else if e.feature_flags &&& CA_FORMAT_WITH_UID_GID_16BIT ≠ 0 ∧
                (child.stat.st_uid > UINT16_MAX ∨ child.stat.st_gid > UINT16_MAX) then
          (-EPROTONOSUPPORT, e)
        else
          if e.feature_flags &&& CA_FORMAT_WITH_SYMLINKS = 0 ∧ S_ISLNK child.stat.st_mode then
            (-EPROTONOSUPPORT, e)
          else if e.feature_flags &&& CA_FORMAT_WITH_DEVICE_NODES = 0 ∧
                  (S_ISBLK child.stat.st_mode ∨ S_ISCHR child.stat.st_mode) then
            (-EPROTONOSUPPORT, e)
          else if e.feature_flags &&& CA_FORMAT_WITH_FIFOS = 0 ∧ S_ISFIFO child.stat.st_mode then
            (-EPROTONOSUPPORT, e)
          else if e.feature_flags &&& CA_FORMAT_WITH_SOCKETS = 0 ∧ S_ISSOCK child.stat.st_mode then
            (-EPROTONOSUPPORT, e)
          else
            (1, { e with buffer :=
              ca_encoder_entry_buffer e.feature_flags e.time_granularity de child })

/-- Lines 819-830: the Goodbye record bytes: header {GOODBYE, 24} and a
single table entry equal to the record's own size. -/
def ca_encoder_goodbye_buffer : List Nat :=
  le64Bytes CA_FORMAT_GOODBYE ++
  le64Bytes (offsetofCaFormatGoodbyeTable + 8) ++
  le64Bytes (offsetofCaFormatGoodbyeTable + 8)

/-- ca_encoder_get_goodbye_data, lines 808-832. -/
def ca_encoder_get_goodbye_data (e : CaEncoder) : Int × CaEncoder :=
  if e.buffer.length > 0 then (1, e)
  else (1, { e with buffer := ca_encoder_goodbye_buffer })

/-- ca_encoder_get_data, lines 834-892: dispatch on the current node's kind
and state; on success hand back the buffer and record its size as the
step_size the next step will consume.  The returned Option is the (ptr,
size) pair: none models the NULL/0 result of the payload-EOF case. -/
def ca_encoder_get_data (e : CaEncoder) : Int × Option (List Nat) × CaEncoder :=
  match ca_encoder_current_node e with
  | none => (-EUNATCH, none, e)
  | some n =>
    let (r, e) :=
      if S_ISREG n.stat.st_mode || S_ISBLK n.stat.st_mode then
        if e.state ≠ .init then (-ENOTTY, e)
        else ca_encoder_get_payload_data e n
      else if S_ISDIR n.stat.st_mode then
        match e.state with
        | .hello => ca_encoder_get_hello_data e
        | .entry => ca_encoder_get_entry_data e n
        | .goodbye => ca_encoder_get_goodbye_data e
        | _ => (-ENOTTY, e)
      else (-ENOTTY, e)
    if r < 0 then (r, none, e)
    else if r = 0 then (0, none, { e with step_size := 0 })
    else (1, some e.buffer, { e with step_size := e.buffer.length })

/-- The chunk length handed back by a get_data result (0 for the NULL/0
payload-EOF case). -/
def retLen : Option (List Nat) → Nat
  | none => 0
  | some l => l.length

/-- ca_encoder_current_archive_offset, lines 982-990. -/
def ca_encoder_current_archive_offset (e : CaEncoder) : Nat :=
  e.archive_offset

/-- Drive the encoder as the spec's data-flow loop does: step, then on DATA
or NEXT_FILE fetch the chunk, until step reports FINISHED.  Returns the
list of chunks, or none on an error or when the round bound is exhausted. -/
def ca_encoder_run (stepFuel : Nat) : Nat → CaEncoder → Option (List (List Nat))
  | 0, _ => none
  | rounds + 1, e =>
    let (r, e) := ca_encoder_step stepFuel e
    if r = CA_ENCODER_FINISHED then some []
    else if r < 0 then none
    else
      let (r2, ret, e) := ca_encoder_get_data e
      if r2 < 0 then none
      else
        match ca_encoder_run stepFuel rounds e with
        | none => none
        | some ls => some (ret.getD [] :: ls)

/-- The canonical driving loop for offset accounting: each round is one
step followed by one get_data, recording the handed-back chunk lengths. -/
def ca_encoder_drive (stepFuel : Nat) : Nat → CaEncoder → Option (List Nat × CaEncoder)
  | 0, e => some ([], e)
  | k + 1, e =>
    let (r, e) := ca_encoder_step stepFuel e
    if r < 0 then none
    else
      let (r2, ret, e) := ca_encoder_get_data e
      if r2 < 0 then none
      else
        match ca_encoder_drive stepFuel k e with
        | none => none
        | some (ls, e2) => some (retLen ret :: ls, e2)

/-! ### Concrete fixtures used by counterexamples and witnesses -/

def ts0 : Timespec := { tv_sec := 0, tv_nsec := 0 }

def emptyDirStat : Stat :=
  { st_mode := 0o040755, st_size := 0, st_uid := 0, st_gid := 0,
    st_mtim := ts0, st_rdev_major := 0, st_rdev_minor := 0 }

/-- A directory with no entries, as a root object. -/
def emptyDirFs : FsObject := .mk emptyDirStat [] [] [] 0

/-- The encoder right after new + set_base_fd(3) on the empty directory. -/
def emptyDirBased : CaEncoder :=
  (ca_encoder_set_base_fd ca_encoder_new 3 emptyDirFs).2

/-- The same encoder after its first (successful) step. -/
def emptyDirAfterStep1 : CaEncoder := (ca_encoder_step 100 emptyDirBased).2

/-- A zero-length regular file, used as a root object. -/
def regRootStat : Stat :=
  { st_mode := 0o100644, st_size := 0, st_uid := 0, st_gid := 0,
    st_mtim := ts0, st_rdev_major := 0, st_rdev_minor := 0 }

def regRootFs : FsObject := .mk regRootStat [] [] [] 0

/-- The node set_base_fd builds for the zero-length regular file root. -/
def regRootNode : CaEncoderNode :=
  { fd := 3, stat := regRootStat, obj := regRootFs, dirents := none,
    dirent_idx := 0, symlink_target := none, device_size := UINT64_MAX }

/-- The encoder right after new + set_base_fd(3) on the zero-length file. -/
def regRootBased : CaEncoder :=
  (ca_encoder_set_base_fd ca_encoder_new 3 regRootFs).2

/-! ### The empty-directory run, stated over an arbitrary directory stat -/

/-- A directory with no entries and arbitrary stat, as a root object. -/
def dirRootFs (st : Stat) : FsObject := .mk st [] [] [] 0

def dirRootBased (st : Stat) : CaEncoder :=
  (ca_encoder_set_base_fd ca_encoder_new 3 (dirRootFs st)).2

def dirNode0 (st : Stat) : CaEncoderNode :=
  { fd := 3, stat := st, obj := dirRootFs st, dirents := none,
    dirent_idx := 0, symlink_target := none, device_size := UINT64_MAX }

def dirBase (st : Stat) : CaEncoder :=
  { state := .init, feature_flags := CA_FORMAT_WITH_BEST,
    time_granularity := 1, nodes := [dirNode0 st], node_idx := 0,
    buffer := [], archive_offset := 0, payload_offset := 0, step_size := 0 }

def dirNodeScanned (st : Stat) : CaEncoderNode :=
  { dirNode0 st with dirents := some [] }

def dirE1 (st : Stat) : CaEncoder :=
  { dirBase st with state := .hello, nodes := [dirNodeScanned st] }

def dirE1g (st : Stat) : CaEncoder :=
  { dirE1 st with buffer := ca_encoder_hello_buffer CA_FORMAT_WITH_BEST,
                  step_size := 32 }

def dirE1c (st : Stat) : CaEncoder :=
  { dirE1 st with buffer := ca_encoder_hello_buffer CA_FORMAT_WITH_BEST,
                  archive_offset := 32, payload_offset := 32 }

def dirE2 (st : Stat) : CaEncoder :=
  { dirE1 st with state := .goodbye, archive_offset := 32 }

def dirE2g (st : Stat) : CaEncoder :=
  { dirE2 st with buffer := ca_encoder_goodbye_buffer, step_size := 24 }

def dirE2c (st : Stat) : CaEncoder :=
  { dirE2 st with buffer := ca_encoder_goodbye_buffer,
                  archive_offset := 56, payload_offset := 24 }

def dirE3 (st : Stat) : CaEncoder :=
  { dirE1 st with state := .eof, archive_offset := 56 }


/-! ### Mode-kind facts: the S_IFMT field determines exactly one kind -/

theorem sifmt_of_isreg {m : Nat} (h : S_ISREG m = true) : m &&& S_IFMT = S_IFREG := by
  simpa [S_ISREG] using h

theorem sifmt_of_isdir {m : Nat} (h : S_ISDIR m = true) : m &&& S_IFMT = S_IFDIR := by
  simpa [S_ISDIR] using h

theorem sifmt_of_islnk {m : Nat} (h : S_ISLNK m = true) : m &&& S_IFMT = S_IFLNK := by
  simpa [S_ISLNK] using h

theorem sifmt_of_isblk {m : Nat} (h : S_ISBLK m = true) : m &&& S_IFMT = S_IFBLK := by
  simpa [S_ISBLK] using h

theorem sifmt_of_ischr {m : Nat} (h : S_ISCHR m = true) : m &&& S_IFMT = S_IFCHR := by
  simpa [S_ISCHR] using h

theorem sifmt_of_isfifo {m : Nat} (h : S_ISFIFO m = true) : m &&& S_IFMT = S_IFIFO := by
  simpa [S_ISFIFO] using h

theorem sifmt_of_issock {m : Nat} (h : S_ISSOCK m = true) : m &&& S_IFMT = S_IFSOCK := by
  simpa [S_ISSOCK] using h

theorem not_isreg_of_fmt {m c : Nat} (h : m &&& S_IFMT = c) (hne : c ≠ S_IFREG) :
    S_ISREG m = false := by
  unfold S_ISREG
  rw [h]
  exact beq_eq_false_iff_ne.2 hne

theorem not_isdir_of_fmt {m c : Nat} (h : m &&& S_IFMT = c) (hne : c ≠ S_IFDIR) :
    S_ISDIR m = false := by
  unfold S_ISDIR
  rw [h]
  exact beq_eq_false_iff_ne.2 hne

theorem not_islnk_of_fmt {m c : Nat} (h : m &&& S_IFMT = c) (hne : c ≠ S_IFLNK) :
    S_ISLNK m = false := by
  unfold S_ISLNK
  rw [h]
  exact beq_eq_false_iff_ne.2 hne

theorem not_isblk_of_fmt {m c : Nat} (h : m &&& S_IFMT = c) (hne : c ≠ S_IFBLK) :
    S_ISBLK m = false := by
  unfold S_ISBLK
  rw [h]
  exact beq_eq_false_iff_ne.2 hne

theorem not_ischr_of_fmt {m c : Nat} (h : m &&& S_IFMT = c) (hne : c ≠ S_IFCHR) :
    S_ISCHR m = false := by
  unfold S_ISCHR
  rw [h]
  exact beq_eq_false_iff_ne.2 hne

theorem not_isfifo_of_fmt {m c : Nat} (h : m &&& S_IFMT = c) (hne : c ≠ S_IFIFO) :
    S_ISFIFO m = false := by
  unfold S_ISFIFO
  rw [h]
  exact beq_eq_false_iff_ne.2 hne

theorem not_issock_of_fmt {m c : Nat} (h : m &&& S_IFMT = c) (hne : c ≠ S_IFSOCK) :
    S_ISSOCK m = false := by
  unfold S_ISSOCK
  rw [h]
  exact beq_eq_false_iff_ne.2 hne

/-! ### Reading fields back out of the Entry chunk -/

theorem entry_buffer_read_mode (f g : Nat) (de : List Nat) (child : CaEncoderNode) :
    readLe64 (ca_encoder_entry_buffer f g de child) 16 =
      ca_encoder_entry_mode f child.stat.st_mode % U64 := by
  simp [ca_encoder_entry_buffer, readLe64, le64Bytes, U64]
  omega

theorem entry_buffer_read_uid (f g : Nat) (de : List Nat) (child : CaEncoderNode) :
    readLe64 (ca_encoder_entry_buffer f g de child) 24 =
      ca_encoder_entry_uid f child.stat % U64 := by
  simp [ca_encoder_entry_buffer, readLe64, le64Bytes, U64]
  omega

theorem entry_buffer_read_gid (f g : Nat) (de : List Nat) (child : CaEncoderNode) :
    readLe64 (ca_encoder_entry_buffer f g de child) 32 =
      ca_encoder_entry_gid f child.stat % U64 := by
  simp [ca_encoder_entry_buffer, readLe64, le64Bytes, U64]
  omega

theorem entry_buffer_read_mtime (f g : Nat) (de : List Nat) (child : CaEncoderNode) :
    readLe64 (ca_encoder_entry_buffer f g de child) 40 =
      ca_encoder_entry_mtime g child.stat.st_mtim % U64 := by
  simp [ca_encoder_entry_buffer, readLe64, le64Bytes, U64]
  omega

theorem entry_mode_lt (f m : Nat) : ca_encoder_entry_mode f m < U64 := by
  have h64 : U64 = 2 ^ 64 := rfl
  unfold ca_encoder_entry_mode
  rw [h64]
  split_ifs <;>
    first
      | exact lt_of_le_of_lt Nat.and_le_right (by decide)
      | exact Nat.or_lt_two_pow (lt_of_le_of_lt Nat.and_le_right (by decide))
          (by split_ifs <;> decide)

theorem entry_mode_mod (f m : Nat) :
    ca_encoder_entry_mode f m % U64 = ca_encoder_entry_mode f m :=
  Nat.mod_eq_of_lt (entry_mode_lt f m)

theorem entry_mtime_lt (g : Nat) (t : Timespec) : ca_encoder_entry_mtime g t < U64 := by
  unfold ca_encoder_entry_mtime
  exact lt_of_le_of_lt (Nat.div_mul_le_self _ _)
    (Nat.mod_lt _ (by unfold U64; positivity))

theorem entry_mtime_mod (g : Nat) (t : Timespec) :
    ca_encoder_entry_mtime g t % U64 = ca_encoder_entry_mtime g t :=
  Nat.mod_eq_of_lt (entry_mtime_lt g t)

/-- The successful path of ca_encoder_get_entry_data: with a fresh buffer, a
current dirent and a pending child, when the uid/gid validation and every
feature gate passes, the call buffers exactly the Entry chunk. -/
theorem ca_encoder_get_entry_data_success
    (e : CaEncoder) (n : CaEncoderNode) (de : List Nat) (child : CaEncoderNode)
    (hbuf : e.buffer = [])
    (hde : ca_encoder_node_current_dirent n = some de)
    (hchild : ca_encoder_current_child_node e = some child)
    (hu1 : child.stat.st_uid ≠ UINT16_MAX) (hu2 : child.stat.st_uid ≠ UINT32_MAX)
    (hg1 : child.stat.st_gid ≠ UINT16_MAX) (hg2 : child.stat.st_gid ≠ UINT32_MAX)
    (h16 : ¬(e.feature_flags &&& CA_FORMAT_WITH_UID_GID_16BIT ≠ 0 ∧
             (child.stat.st_uid > UINT16_MAX ∨ child.stat.st_gid > UINT16_MAX)))
    (hsym : ¬(e.feature_flags &&& CA_FORMAT_WITH_SYMLINKS = 0 ∧
              S_ISLNK child.stat.st_mode = true))
    (hdev : ¬(e.feature_flags &&& CA_FORMAT_WITH_DEVICE_NODES = 0 ∧
              (S_ISBLK child.stat.st_mode = true ∨ S_ISCHR child.stat.st_mode = true)))
    (hfifo : ¬(e.feature_flags &&& CA_FORMAT_WITH_FIFOS = 0 ∧
               S_ISFIFO child.stat.st_mode = true))
    (hsock : ¬(e.feature_flags &&& CA_FORMAT_WITH_SOCKETS = 0 ∧
               S_ISSOCK child.stat.st_mode = true)) :
    ca_encoder_get_entry_data e n =
      (1, { e with buffer :=
        ca_encoder_entry_buffer e.feature_flags e.time_granularity de child }) := by
  simp [ca_encoder_get_entry_data, hbuf, hde, hchild, hu1, hu2, hg1, hg2,
    h16, hsym, hdev, hfifo, hsock]

/-! ### Entry-state fixtures -/

/-- An encoder positioned in the ENTRY state, about to emit the entry of
the given pending child of a directory root whose current dirent name is
"l" (byte 108). -/
def entryFixtureParent : CaEncoderNode :=
  { fd := 3, stat := emptyDirStat, obj := emptyDirFs, dirents := some [[108]],
    dirent_idx := 0, symlink_target := none, device_size := UINT64_MAX }

def entryFixtureEncoder (flags g : Nat) (child : CaEncoderNode) : CaEncoder :=
  { state := .entry, feature_flags := flags, time_granularity := g,
    nodes := [entryFixtureParent, child], node_idx := 0, buffer := [],
    archive_offset := 0, payload_offset := 0, step_size := 0 }

/-- A symlink child with on-disk permission bits 0754 and target "tgt". -/
def lnkStat : Stat :=
  { st_mode := 0o120754, st_size := 0, st_uid := 0, st_gid := 0,
    st_mtim := ts0, st_rdev_major := 0, st_rdev_minor := 0 }

def lnkChildNode : CaEncoderNode :=
  { fd := -1, stat := lnkStat, obj := .mk lnkStat [] [] [116, 103, 116] 0,
    dirents := none, dirent_idx := 0,
    symlink_target := some [116, 103, 116], device_size := UINT64_MAX }

/-- A fifo child whose uid is the reserved 16-bit sentinel 65535. -/
def fifoSentinelStat : Stat :=
  { st_mode := 0o010644, st_size := 0, st_uid := 65535, st_gid := 0,
    st_mtim := ts0, st_rdev_major := 0, st_rdev_minor := 0 }

def fifoSentinelChildNode : CaEncoderNode :=
  { fd := -1, stat := fifoSentinelStat, obj := .mk fifoSentinelStat [] [] [] 0,
    dirents := none, dirent_idx := 0, symlink_target := none,
    device_size := UINT64_MAX }

/-- A regular-file child with uid 1, gid 2 and a sub-second mtime. -/
def regChildStat : Stat :=
  { st_mode := 0o100644, st_size := 5, st_uid := 1, st_gid := 2,
    st_mtim := { tv_sec := 1234567890, tv_nsec := 123456789 },
    st_rdev_major := 0, st_rdev_minor := 0 }

def regChildNode : CaEncoderNode :=
  { fd := 4, stat := regChildStat, obj := .mk regChildStat [] [97, 98, 99, 100, 101] [] 0,
    dirents := none, dirent_idx := 0, symlink_target := none,
    device_size := UINT64_MAX }

/-- ca_encoder_get_entry_data rejects with -EINVAL, mutating nothing, when
uid or gid equals one of the reserved sentinels (lines 701-705). -/
theorem ca_encoder_get_entry_data_sentinel
    (e : CaEncoder) (n : CaEncoderNode) (de : List Nat) (child : CaEncoderNode)
    (hbuf : e.buffer = [])
    (hde : ca_encoder_node_current_dirent n = some de)
    (hchild : ca_encoder_current_child_node e = some child)
    (hs : child.stat.st_uid = UINT16_MAX ∨ child.stat.st_uid = UINT32_MAX ∨
          child.stat.st_gid = UINT16_MAX ∨ child.stat.st_gid = UINT32_MAX) :
    ca_encoder_get_entry_data e n = (-EINVAL, e) := by
  simp [ca_encoder_get_entry_data, hbuf, hde, hchild, hs]

/-- ca_encoder_get_entry_data rejects with -EPROTONOSUPPORT, mutating
nothing, when the 16-bit width flag is set and uid or gid exceeds 65535
(lines 707-710). -/
theorem ca_encoder_get_entry_data_w16_overflow
    (e : CaEncoder) (n : CaEncoderNode) (de : List Nat) (child : CaEncoderNode)
    (hbuf : e.buffer = [])
    (hde : ca_encoder_node_current_dirent n = some de)
    (hchild : ca_encoder_current_child_node e = some child)
    (hu1 : child.stat.st_uid ≠ UINT16_MAX) (hu2 : child.stat.st_uid ≠ UINT32_MAX)
    (hg1 : child.stat.st_gid ≠ UINT16_MAX) (hg2 : child.stat.st_gid ≠ UINT32_MAX)
    (hover : e.feature_flags &&& CA_FORMAT_WITH_UID_GID_16BIT ≠ 0 ∧
             (child.stat.st_uid > UINT16_MAX ∨ child.stat.st_gid > UINT16_MAX)) :
    ca_encoder_get_entry_data e n = (-EPROTONOSUPPORT, e) := by
  simp [ca_encoder_get_entry_data, hbuf, hde, hchild, hu1, hu2, hg1, hg2, hover]

/-! ### Claim C3 -/

/-- Claim C3 (code bug): the claim says that for every accepted flag set
with none of the four time-granularity flags the granularity after
set_feature_flags is 1 ns, and ca_encoder_new's explicit default of 1
confirms that intent; but the function initializes its local granularity to
0 and only the four time-flag branches ever set it, so the call stores 0.
Evaluated at the failing input flags = WITH_SYMLINKS (accepted, no time
bits): the call succeeds and leaves time_granularity = 0, not 1.  Any later
ENTRY build then divides mtime by this 0 granularity (undefined behavior in
the C code). -/
theorem c3_no_time_flag_sets_granularity_zero :
    (ca_encoder_set_feature_flags ca_encoder_new CA_FORMAT_WITH_SYMLINKS).1 = 0 ∧
    (ca_encoder_set_feature_flags ca_encoder_new CA_FORMAT_WITH_SYMLINKS).2.time_granularity = 0 ∧
    ((0 : Nat) ≠ 1) := by
  refine ⟨by decide, by decide, by decide⟩

/-! ### Claim C4 -/

/-- Claim C4, counterexample: the externally supplied root descriptor 3 is
accepted by set_base_fd, and destroying the encoder closes it — the fd >= 3
test in ca_encoder_node_free spares only the three standard streams, not an
arbitrary external root, so the root is not borrowed for every descriptor
value as claimed. -/
theorem c4_counterexample :
    (ca_encoder_set_base_fd ca_encoder_new 3 emptyDirFs).1 = 0 ∧
    (3 : Int) ∈ ca_encoder_unref_closed_fds
      (ca_encoder_set_base_fd ca_encoder_new 3 emptyDirFs).2 := by
  refine ⟨by decide, by decide⟩

/-- Claim C4, amended: destruction closes every node descriptor that is
at least 3 — including an externally supplied root — and never closes
descriptors 0, 1 or 2 (the standard streams).  After a successful
set_base_fd the closed set is exactly [fd] when fd >= 3 and empty
otherwise; and in general every fd the destructor closes is >= 3. -/
theorem c4_close_policy (e : CaEncoder) (fd : Int) (fs : FsObject)
    (h : (ca_encoder_set_base_fd e fd fs).1 = 0) :
    ca_encoder_unref_closed_fds (ca_encoder_set_base_fd e fd fs).2 =
      (if 3 ≤ fd then [fd] else []) ∧
    (∀ e' : CaEncoder, ∀ f ∈ ca_encoder_unref_closed_fds e', 3 ≤ f) := by
  constructor
  · simp only [ca_encoder_set_base_fd] at h ⊢
    split_ifs at h ⊢ with h1 h2 h3 <;>
      simp_all [ca_encoder_unref_closed_fds, ca_encoder_node_free,
        EINVAL, EBUSY, ENOTTY]
  · intro e' f hf
    unfold ca_encoder_unref_closed_fds at hf
    rw [List.mem_filterMap] at hf
    obtain ⟨n, _, hn⟩ := hf
    unfold ca_encoder_node_free at hn
    by_cases h3 : n.fd ≥ 3
    · simp [h3] at hn
      omega
    · simp [h3] at hn

/-- Witness for c4_close_policy at root descriptor 3 on the empty
directory. -/
theorem c4_close_policy_witness :
    (ca_encoder_unref_closed_fds (ca_encoder_set_base_fd ca_encoder_new 3 emptyDirFs).2 =
      (if (3 : Int) ≤ 3 then [(3 : Int)] else [])) ∧
    (∀ e' : CaEncoder, ∀ f ∈ ca_encoder_unref_closed_fds e', 3 ≤ f) :=
  c4_close_policy ca_encoder_new 3 emptyDirFs (by decide)

/-! ### Claim C5 -/

/-- Claim C5, counterexample: after the first step on a set base (the step
reported DATA), set_feature_flags with WITH_SYMLINKS returns 0 — not a
negative error — and replaces both the flags (WITH_BEST becomes
WITH_SYMLINKS) and the time granularity (1 becomes 0), contradicting the
claim that the call fails and leaves both unchanged. -/
theorem c5_counterexample :
    (ca_encoder_step 100 emptyDirBased).1 = CA_ENCODER_DATA ∧
    0 < emptyDirAfterStep1.nodes.length ∧
    (ca_encoder_set_feature_flags emptyDirAfterStep1 CA_FORMAT_WITH_SYMLINKS).1 = 0 ∧
    (ca_encoder_set_feature_flags emptyDirAfterStep1 CA_FORMAT_WITH_SYMLINKS).2.feature_flags =
      CA_FORMAT_WITH_SYMLINKS ∧
    emptyDirAfterStep1.feature_flags = CA_FORMAT_WITH_BEST ∧
    CA_FORMAT_WITH_SYMLINKS ≠ CA_FORMAT_WITH_BEST ∧
    (ca_encoder_set_feature_flags emptyDirAfterStep1 CA_FORMAT_WITH_SYMLINKS).2.time_granularity = 0 ∧
    emptyDirAfterStep1.time_granularity = 1 := by
  refine ⟨by decide, by decide, by decide, by decide, by decide, by decide, by decide, by decide⟩

/-- Claim C5, amended: set_feature_flags performs no has-started check.
Called with any flag set inside FEATURE_FLAGS_MAX — even after the base is
set and stepping has begun — it succeeds, installs exactly the same
normalized flags and granularity as it would on a fresh encoder, and
leaves the walk state (nodes, state, offsets) alone. -/
theorem c5_flags_changeable_after_start (e : CaEncoder) (flags : Nat)
    (hfl : flags &&& (UINT64_MAX ^^^ CA_FORMAT_FEATURE_FLAGS_MAX) = 0)
    (_hstarted : 0 < e.nodes.length) :
    (ca_encoder_set_feature_flags e flags).1 = 0 ∧
    (ca_encoder_set_feature_flags e flags).2.feature_flags =
      (ca_encoder_set_feature_flags ca_encoder_new flags).2.feature_flags ∧
    (ca_encoder_set_feature_flags e flags).2.time_granularity =
      (ca_encoder_set_feature_flags ca_encoder_new flags).2.time_granularity ∧
    (ca_encoder_set_feature_flags e flags).2.nodes = e.nodes ∧
    (ca_encoder_set_feature_flags e flags).2.state = e.state ∧
    (ca_encoder_set_feature_flags e flags).2.archive_offset = e.archive_offset := by
  unfold ca_encoder_set_feature_flags
  simp [hfl]

/-- Witness for c5_flags_changeable_after_start: the post-first-step
encoder on the empty directory, with WITH_SYMLINKS requested. -/
theorem c5_flags_changeable_after_start_witness :
    (ca_encoder_set_feature_flags emptyDirAfterStep1 CA_FORMAT_WITH_SYMLINKS).1 = 0 ∧
    (ca_encoder_set_feature_flags emptyDirAfterStep1 CA_FORMAT_WITH_SYMLINKS).2.feature_flags =
      (ca_encoder_set_feature_flags ca_encoder_new CA_FORMAT_WITH_SYMLINKS).2.feature_flags ∧
    (ca_encoder_set_feature_flags emptyDirAfterStep1 CA_FORMAT_WITH_SYMLINKS).2.time_granularity =
      (ca_encoder_set_feature_flags ca_encoder_new CA_FORMAT_WITH_SYMLINKS).2.time_granularity ∧
    (ca_encoder_set_feature_flags emptyDirAfterStep1 CA_FORMAT_WITH_SYMLINKS).2.nodes =
      emptyDirAfterStep1.nodes ∧
    (ca_encoder_set_feature_flags emptyDirAfterStep1 CA_FORMAT_WITH_SYMLINKS).2.state =
      emptyDirAfterStep1.state ∧
    (ca_encoder_set_feature_flags emptyDirAfterStep1 CA_FORMAT_WITH_SYMLINKS).2.archive_offset =
      emptyDirAfterStep1.archive_offset :=
  c5_flags_changeable_after_start emptyDirAfterStep1 CA_FORMAT_WITH_SYMLINKS
    (by decide) (by decide)

/-! ### Claim C2 -/

/-- Claim C2, counterexample: a symlink child ("l" with on-disk bits 0754,
target "tgt") under WITH_SYMLINKS | WITH_READONLY.  The entry is built
successfully, but the emitted mode field is S_IFLNK | 0666 = 41398, not
S_IFLNK | 0777 = 41471: the READONLY masking runs after the symlink
normalization and rewrites the low bits. -/
theorem c2_counterexample :
    (ca_encoder_get_entry_data
      (entryFixtureEncoder (CA_FORMAT_WITH_SYMLINKS ||| CA_FORMAT_WITH_READONLY) 1 lnkChildNode)
      entryFixtureParent).1 = 1 ∧
    readLe64 ((ca_encoder_get_entry_data
      (entryFixtureEncoder (CA_FORMAT_WITH_SYMLINKS ||| CA_FORMAT_WITH_READONLY) 1 lnkChildNode)
      entryFixtureParent).2.buffer) 16 = S_IFLNK ||| 0o666 ∧
    (S_IFLNK ||| 0o666 : Nat) ≠ S_IFLNK ||| 0o777 := by
  refine ⟨by decide, by decide, by decide⟩

/-- Claim C2, amended: for every symlink child whose entry is successfully
built, the emitted mode equals S_IFLNK | 0777 exactly when WITH_PERMISSIONS
is effective; under WITH_READONLY it equals S_IFLNK | 0666 (the readonly
synthesis rewrites the forced 0777), and with neither flag the permission
bits are stripped entirely, leaving bare S_IFLNK.  In each case the result
is independent of the on-disk permission bits. -/
theorem c2_symlink_mode
    (e : CaEncoder) (n : CaEncoderNode) (de : List Nat) (child : CaEncoderNode)
    (hbuf : e.buffer = [])
    (hde : ca_encoder_node_current_dirent n = some de)
    (hchild : ca_encoder_current_child_node e = some child)
    (hlnk : S_ISLNK child.stat.st_mode = true)
    (husym : e.feature_flags &&& CA_FORMAT_WITH_SYMLINKS ≠ 0)
    (hu1 : child.stat.st_uid ≠ UINT16_MAX) (hu2 : child.stat.st_uid ≠ UINT32_MAX)
    (hg1 : child.stat.st_gid ≠ UINT16_MAX) (hg2 : child.stat.st_gid ≠ UINT32_MAX)
    (h16 : ¬(e.feature_flags &&& CA_FORMAT_WITH_UID_GID_16BIT ≠ 0 ∧
             (child.stat.st_uid > UINT16_MAX ∨ child.stat.st_gid > UINT16_MAX))) :
    (ca_encoder_get_entry_data e n).1 = 1 ∧
    readLe64 (ca_encoder_get_entry_data e n).2.buffer 16 =
      (if e.feature_flags &&& CA_FORMAT_WITH_PERMISSIONS ≠ 0 then S_IFLNK ||| 0o777
       else if e.feature_flags &&& CA_FORMAT_WITH_READONLY ≠ 0 then S_IFLNK ||| 0o666
       else S_IFLNK) := by
  have hfmt := sifmt_of_islnk hlnk
  have hsym : ¬(e.feature_flags &&& CA_FORMAT_WITH_SYMLINKS = 0 ∧
      S_ISLNK child.stat.st_mode = true) := fun h => husym h.1
  have hdev : ¬(e.feature_flags &&& CA_FORMAT_WITH_DEVICE_NODES = 0 ∧
      (S_ISBLK child.stat.st_mode = true ∨ S_ISCHR child.stat.st_mode = true)) := by
    intro h
    rcases h.2 with hb | hc
    · rw [not_isblk_of_fmt hfmt (by decide)] at hb
      exact Bool.noConfusion hb
    · rw [not_ischr_of_fmt hfmt (by decide)] at hc
      exact Bool.noConfusion hc
  have hfifo : ¬(e.feature_flags &&& CA_FORMAT_WITH_FIFOS = 0 ∧
      S_ISFIFO child.stat.st_mode = true) := by
    intro h
    have hx := h.2
    rw [not_isfifo_of_fmt hfmt (by decide)] at hx
    exact Bool.noConfusion hx
  have hsock : ¬(e.feature_flags &&& CA_FORMAT_WITH_SOCKETS = 0 ∧
      S_ISSOCK child.stat.st_mode = true) := by
    intro h
    have hx := h.2
    rw [not_issock_of_fmt hfmt (by decide)] at hx
    exact Bool.noConfusion hx
  rw [ca_encoder_get_entry_data_success e n de child hbuf hde hchild hu1 hu2 hg1 hg2
    h16 hsym hdev hfifo hsock]
  refine ⟨rfl, ?_⟩
  show readLe64 (ca_encoder_entry_buffer e.feature_flags e.time_granularity de child) 16 = _
  rw [entry_buffer_read_mode, entry_mode_mod]
  have hw : ((S_IFLNK ||| 511) &&& 146 ≠ 0) := by decide
  have hnd : S_ISDIR (S_IFLNK ||| 511) = false := by decide
  simp only [ca_encoder_entry_mode, hlnk, hw, hnd]
  split_ifs <;> first | decide | simp_all

/-- Witness for c2_symlink_mode at the symlink fixture under
WITH_SYMLINKS | WITH_READONLY. -/
theorem c2_symlink_mode_witness :
    (ca_encoder_get_entry_data
      (entryFixtureEncoder (CA_FORMAT_WITH_SYMLINKS ||| CA_FORMAT_WITH_READONLY) 1 lnkChildNode)
      entryFixtureParent).1 = 1 ∧
    readLe64 ((ca_encoder_get_entry_data
      (entryFixtureEncoder (CA_FORMAT_WITH_SYMLINKS ||| CA_FORMAT_WITH_READONLY) 1 lnkChildNode)
      entryFixtureParent).2.buffer) 16 =
      (if (entryFixtureEncoder (CA_FORMAT_WITH_SYMLINKS ||| CA_FORMAT_WITH_READONLY) 1
            lnkChildNode).feature_flags &&& CA_FORMAT_WITH_PERMISSIONS ≠ 0 then
         S_IFLNK ||| 0o777
       else if (entryFixtureEncoder (CA_FORMAT_WITH_SYMLINKS ||| CA_FORMAT_WITH_READONLY) 1
            lnkChildNode).feature_flags &&& CA_FORMAT_WITH_READONLY ≠ 0 then
         S_IFLNK ||| 0o666
       else S_IFLNK) :=
  c2_symlink_mode _ entryFixtureParent [108] lnkChildNode rfl rfl rfl (by decide)
    (by decide) (by decide) (by decide) (by decide) (by decide) (by decide)

/-! ### Claim C6 -/

/-- Claim C6: when an ENTRY record is built for a child (fresh buffer,
current dirent, pending child, every kind gate passing, uid/gid in the
uint32 range of uid_t/gid_t): (a) a uid or gid equal to 65535 or 2^32-1 is
rejected with -EINVAL regardless of flags; (b) with WITH_UID_GID_16BIT
effective, a uid or gid above 65535 makes the build fail; (c) with neither
width flag the emitted uid and gid fields are 0; (d) with a width flag set
the stat's uid and gid are emitted. -/
theorem c6_uid_gid_rules
    (e : CaEncoder) (n : CaEncoderNode) (de : List Nat) (child : CaEncoderNode)
    (hbuf : e.buffer = [])
    (hde : ca_encoder_node_current_dirent n = some de)
    (hchild : ca_encoder_current_child_node e = some child)
    (hu32 : child.stat.st_uid < 4294967296) (hg32 : child.stat.st_gid < 4294967296)
    (hsym : ¬(e.feature_flags &&& CA_FORMAT_WITH_SYMLINKS = 0 ∧
              S_ISLNK child.stat.st_mode = true))
    (hdev : ¬(e.feature_flags &&& CA_FORMAT_WITH_DEVICE_NODES = 0 ∧
              (S_ISBLK child.stat.st_mode = true ∨ S_ISCHR child.stat.st_mode = true)))
    (hfifo : ¬(e.feature_flags &&& CA_FORMAT_WITH_FIFOS = 0 ∧
               S_ISFIFO child.stat.st_mode = true))
    (hsock : ¬(e.feature_flags &&& CA_FORMAT_WITH_SOCKETS = 0 ∧
               S_ISSOCK child.stat.st_mode = true)) :
    ((child.stat.st_uid = UINT16_MAX ∨ child.stat.st_uid = UINT32_MAX ∨
      child.stat.st_gid = UINT16_MAX ∨ child.stat.st_gid = UINT32_MAX) →
      ca_encoder_get_entry_data e n = (-EINVAL, e)) ∧
    (e.feature_flags &&& CA_FORMAT_WITH_UID_GID_16BIT ≠ 0 →
      (UINT16_MAX < child.stat.st_uid ∨ UINT16_MAX < child.stat.st_gid) →
      (ca_encoder_get_entry_data e n).1 < 0) ∧
    ((child.stat.st_uid ≠ UINT16_MAX ∧ child.stat.st_uid ≠ UINT32_MAX ∧
      child.stat.st_gid ≠ UINT16_MAX ∧ child.stat.st_gid ≠ UINT32_MAX) →
      ¬(e.feature_flags &&& CA_FORMAT_WITH_UID_GID_16BIT ≠ 0 ∧
        (child.stat.st_uid > UINT16_MAX ∨ child.stat.st_gid > UINT16_MAX)) →
      e.feature_flags &&& (CA_FORMAT_WITH_UID_GID_16BIT ||| CA_FORMAT_WITH_UID_GID_32BIT) = 0 →
      (ca_encoder_get_entry_data e n).1 = 1 ∧
      readLe64 (ca_encoder_get_entry_data e n).2.buffer 24 = 0 ∧
      readLe64 (ca_encoder_get_entry_data e n).2.buffer 32 = 0) ∧
    ((child.stat.st_uid ≠ UINT16_MAX ∧ child.stat.st_uid ≠ UINT32_MAX ∧
      child.stat.st_gid ≠ UINT16_MAX ∧ child.stat.st_gid ≠ UINT32_MAX) →
      ¬(e.feature_flags &&& CA_FORMAT_WITH_UID_GID_16BIT ≠ 0 ∧
        (child.stat.st_uid > UINT16_MAX ∨ child.stat.st_gid > UINT16_MAX)) →
      e.feature_flags &&& (CA_FORMAT_WITH_UID_GID_16BIT ||| CA_FORMAT_WITH_UID_GID_32BIT) ≠ 0 →
      (ca_encoder_get_entry_data e n).1 = 1 ∧
      readLe64 (ca_encoder_get_entry_data e n).2.buffer 24 = child.stat.st_uid ∧
      readLe64 (ca_encoder_get_entry_data e n).2.buffer 32 = child.stat.st_gid) := by
  refine ⟨?_, ?_, ?_, ?_⟩
  · intro hs
    exact ca_encoder_get_entry_data_sentinel e n de child hbuf hde hchild hs
  · intro h16 hov
    by_cases hs : child.stat.st_uid = UINT16_MAX ∨ child.stat.st_uid = UINT32_MAX ∨
        child.stat.st_gid = UINT16_MAX ∨ child.stat.st_gid = UINT32_MAX
    · rw [ca_encoder_get_entry_data_sentinel e n de child hbuf hde hchild hs]
      show -EINVAL < 0
      decide
    · push_neg at hs
      rw [ca_encoder_get_entry_data_w16_overflow e n de child hbuf hde hchild
        hs.1 hs.2.1 hs.2.2.1 hs.2.2.2 ⟨h16, hov⟩]
      show -EPROTONOSUPPORT < 0
      decide
  · intro hsent hnov hw
    obtain ⟨hu1, hu2, hg1, hg2⟩ := hsent
    rw [ca_encoder_get_entry_data_success e n de child hbuf hde hchild hu1 hu2 hg1 hg2
      hnov hsym hdev hfifo hsock]
    refine ⟨rfl, ?_, ?_⟩
    · show readLe64 (ca_encoder_entry_buffer e.feature_flags e.time_granularity de child) 24 = _
      rw [entry_buffer_read_uid]
      simp [ca_encoder_entry_uid, hw]
    · show readLe64 (ca_encoder_entry_buffer e.feature_flags e.time_granularity de child) 32 = _
      rw [entry_buffer_read_gid]
      simp [ca_encoder_entry_gid, hw]
  · intro hsent hnov hw
    obtain ⟨hu1, hu2, hg1, hg2⟩ := hsent
    rw [ca_encoder_get_entry_data_success e n de child hbuf hde hchild hu1 hu2 hg1 hg2
      hnov hsym hdev hfifo hsock]
    refine ⟨rfl, ?_, ?_⟩
    · show readLe64 (ca_encoder_entry_buffer e.feature_flags e.time_granularity de child) 24 = _
      rw [entry_buffer_read_uid]
      simp only [ca_encoder_entry_uid, if_pos hw]
      exact Nat.mod_eq_of_lt (lt_trans hu32 (by decide))
    · show readLe64 (ca_encoder_entry_buffer e.feature_flags e.time_granularity de child) 32 = _
      rw [entry_buffer_read_gid]
      simp only [ca_encoder_entry_gid, if_pos hw]
      exact Nat.mod_eq_of_lt (lt_trans hg32 (by decide))

/-- Witness for c6_uid_gid_rules at the regular-file fixture (uid 1, gid 2)
under WITH_BEST. -/
theorem c6_uid_gid_rules_witness :
    (ca_encoder_get_entry_data (entryFixtureEncoder CA_FORMAT_WITH_BEST 1 regChildNode)
      entryFixtureParent).1 = 1 ∧
    readLe64 ((ca_encoder_get_entry_data (entryFixtureEncoder CA_FORMAT_WITH_BEST 1 regChildNode)
      entryFixtureParent).2.buffer) 24 = regChildNode.stat.st_uid ∧
    readLe64 ((ca_encoder_get_entry_data (entryFixtureEncoder CA_FORMAT_WITH_BEST 1 regChildNode)
      entryFixtureParent).2.buffer) 32 = regChildNode.stat.st_gid :=
  (c6_uid_gid_rules (entryFixtureEncoder CA_FORMAT_WITH_BEST 1 regChildNode)
    entryFixtureParent [108] regChildNode rfl rfl rfl (by decide) (by decide)
    (by decide) (by decide) (by decide) (by decide)).2.2.2
    (by refine ⟨by decide, by decide, by decide, by decide⟩) (by decide) (by decide)

/-! ### Claim C7 -/

/-- The gate-rejection behavior of ca_encoder_get_entry_data (lines
718-732): a child whose kind's WITH_* flag is off makes the build fail
before anything is written — with -EPROTONOSUPPORT when the uid/gid checks
(which run first) pass, and in every case leaving the encoder untouched. -/
theorem ca_encoder_get_entry_data_gate_reject
    (e : CaEncoder) (n : CaEncoderNode) (de : List Nat) (child : CaEncoderNode)
    (hbuf : e.buffer = [])
    (hde : ca_encoder_node_current_dirent n = some de)
    (hchild : ca_encoder_current_child_node e = some child)
    (hgate : (e.feature_flags &&& CA_FORMAT_WITH_SYMLINKS = 0 ∧
              S_ISLNK child.stat.st_mode = true) ∨
             (e.feature_flags &&& CA_FORMAT_WITH_DEVICE_NODES = 0 ∧
              (S_ISBLK child.stat.st_mode = true ∨ S_ISCHR child.stat.st_mode = true)) ∨
             (e.feature_flags &&& CA_FORMAT_WITH_FIFOS = 0 ∧
              S_ISFIFO child.stat.st_mode = true) ∨
             (e.feature_flags &&& CA_FORMAT_WITH_SOCKETS = 0 ∧
              S_ISSOCK child.stat.st_mode = true)) :
    (ca_encoder_get_entry_data e n).1 < 0 ∧
    (ca_encoder_get_entry_data e n).2 = e ∧
    ((child.stat.st_uid ≠ UINT16_MAX ∧ child.stat.st_uid ≠ UINT32_MAX ∧
      child.stat.st_gid ≠ UINT16_MAX ∧ child.stat.st_gid ≠ UINT32_MAX) →
     ¬(e.feature_flags &&& CA_FORMAT_WITH_UID_GID_16BIT ≠ 0 ∧
       (child.stat.st_uid > UINT16_MAX ∨ child.stat.st_gid > UINT16_MAX)) →
     (ca_encoder_get_entry_data e n).1 = -EPROTONOSUPPORT) := by
  by_cases hs : child.stat.st_uid = UINT16_MAX ∨ child.stat.st_uid = UINT32_MAX ∨
      child.stat.st_gid = UINT16_MAX ∨ child.stat.st_gid = UINT32_MAX
  · rw [ca_encoder_get_entry_data_sentinel e n de child hbuf hde hchild hs]
    refine ⟨by show -EINVAL < 0; decide, rfl, ?_⟩
    intro hsent _
    obtain ⟨h1, h2, h3, h4⟩ := hsent
    rcases hs with h | h | h | h
    · exact absurd h h1
    · exact absurd h h2
    · exact absurd h h3
    · exact absurd h h4
  · push_neg at hs
    obtain ⟨hu1, hu2, hg1, hg2⟩ := hs
    by_cases hov : e.feature_flags &&& CA_FORMAT_WITH_UID_GID_16BIT ≠ 0 ∧
        (child.stat.st_uid > UINT16_MAX ∨ child.stat.st_gid > UINT16_MAX)
    · rw [ca_encoder_get_entry_data_w16_overflow e n de child hbuf hde hchild
        hu1 hu2 hg1 hg2 hov]
      exact ⟨by show -EPROTONOSUPPORT < 0; decide, rfl, fun _ hnov => absurd hov hnov⟩
    · have hmain : ca_encoder_get_entry_data e n = (-EPROTONOSUPPORT, e) := by
        rcases hgate with ⟨hf, hk⟩ | ⟨hf, hk⟩ | ⟨hf, hk⟩ | ⟨hf, hk⟩
        · simp [ca_encoder_get_entry_data, hbuf, hde, hchild, hu1, hu2, hg1, hg2,
            hov, hf, hk]
        · rcases hk with hb | hc
          · have hfmt := sifmt_of_isblk hb
            have hl := not_islnk_of_fmt hfmt (by decide)
            simp [ca_encoder_get_entry_data, hbuf, hde, hchild, hu1, hu2, hg1, hg2,
              hov, hf, hb, hl]
          · have hfmt := sifmt_of_ischr hc
            have hl := not_islnk_of_fmt hfmt (by decide)
            simp [ca_encoder_get_entry_data, hbuf, hde, hchild, hu1, hu2, hg1, hg2,
              hov, hf, hc, hl]
        · have hfmt := sifmt_of_isfifo hk
          have hl := not_islnk_of_fmt hfmt (by decide)
          have hb := not_isblk_of_fmt hfmt (by decide)
          have hc := not_ischr_of_fmt hfmt (by decide)
          simp [ca_encoder_get_entry_data, hbuf, hde, hchild, hu1, hu2, hg1, hg2,
            hov, hf, hk, hl, hb, hc]
        · have hfmt := sifmt_of_issock hk
          have hl := not_islnk_of_fmt hfmt (by decide)
          have hb := not_isblk_of_fmt hfmt (by decide)
          have hc := not_ischr_of_fmt hfmt (by decide)
          have hff := not_isfifo_of_fmt hfmt (by decide)
          simp [ca_encoder_get_entry_data, hbuf, hde, hchild, hu1, hu2, hg1, hg2,
            hov, hf, hk, hl, hb, hc, hff]
      rw [hmain]
      exact ⟨by show -EPROTONOSUPPORT < 0; decide, rfl, fun _ _ => rfl⟩

/-- Claim C7, counterexample: a fifo child with WITH_FIFOS off but whose
uid is the reserved sentinel 65535 fails with -EINVAL, not with the
protocol-unsupported error the claim promises for every such child — the
uid/gid validation runs before the feature gates. -/
theorem c7_counterexample :
    ((entryFixtureEncoder 0 1 fifoSentinelChildNode).feature_flags &&&
      CA_FORMAT_WITH_FIFOS = 0) ∧
    S_ISFIFO fifoSentinelChildNode.stat.st_mode = true ∧
    (ca_encoder_get_entry_data (entryFixtureEncoder 0 1 fifoSentinelChildNode)
      entryFixtureParent).1 = -EINVAL ∧
    (-EINVAL ≠ -EPROTONOSUPPORT) := by
  refine ⟨by decide, by decide, by decide, by decide⟩

/-- Claim C7, amended: for every kind K in {symlink, blk/chr device, fifo,
socket}, when WITH_K is off and a child of kind K is pending, get_data in
the ENTRY state fails — with -EPROTONOSUPPORT provided the uid/gid
validation (which runs first) passes, and with its own error otherwise —
and no bytes of the entry are placed in the buffer, the archive offset is
unchanged, and step_size is unchanged, so nothing is ever counted toward
the archive. -/
theorem c7_feature_rejection
    (e : CaEncoder) (n : CaEncoderNode) (de : List Nat) (child : CaEncoderNode)
    (hnode : ca_encoder_current_node e = some n)
    (hdir : S_ISDIR n.stat.st_mode = true)
    (hstate : e.state = .entry)
    (hbuf : e.buffer = [])
    (hde : ca_encoder_node_current_dirent n = some de)
    (hchild : ca_encoder_current_child_node e = some child)
    (hgate : (e.feature_flags &&& CA_FORMAT_WITH_SYMLINKS = 0 ∧
              S_ISLNK child.stat.st_mode = true) ∨
             (e.feature_flags &&& CA_FORMAT_WITH_DEVICE_NODES = 0 ∧
              (S_ISBLK child.stat.st_mode = true ∨ S_ISCHR child.stat.st_mode = true)) ∨
             (e.feature_flags &&& CA_FORMAT_WITH_FIFOS = 0 ∧
              S_ISFIFO child.stat.st_mode = true) ∨
             (e.feature_flags &&& CA_FORMAT_WITH_SOCKETS = 0 ∧
              S_ISSOCK child.stat.st_mode = true)) :
    (ca_encoder_get_data e).1 < 0 ∧
    ((child.stat.st_uid ≠ UINT16_MAX ∧ child.stat.st_uid ≠ UINT32_MAX ∧
      child.stat.st_gid ≠ UINT16_MAX ∧ child.stat.st_gid ≠ UINT32_MAX) →
     ¬(e.feature_flags &&& CA_FORMAT_WITH_UID_GID_16BIT ≠ 0 ∧
       (child.stat.st_uid > UINT16_MAX ∨ child.stat.st_gid > UINT16_MAX)) →
     (ca_encoder_get_data e).1 = -EPROTONOSUPPORT) ∧
    (ca_encoder_get_data e).2.1 = none ∧
    (ca_encoder_get_data e).2.2.buffer = [] ∧
    (ca_encoder_get_data e).2.2.archive_offset = e.archive_offset ∧
    (ca_encoder_get_data e).2.2.step_size = e.step_size := by
  obtain ⟨hlt, heq, hproto⟩ :=
    ca_encoder_get_entry_data_gate_reject e n de child hbuf hde hchild hgate
  have hfmt := sifmt_of_isdir hdir
  have hreg := not_isreg_of_fmt hfmt (by decide)
  have hblk := not_isblk_of_fmt hfmt (by decide)
  have hgd : ca_encoder_get_data e =
      ((ca_encoder_get_entry_data e n).1, none, (ca_encoder_get_entry_data e n).2) := by
    rcases hp : ca_encoder_get_entry_data e n with ⟨r, e2⟩
    rw [hp] at hlt
    simp [ca_encoder_get_data, hnode, hreg, hblk, hdir, hstate, hp, hlt]
  rw [hgd]
  refine ⟨hlt, fun hsent hnov => hproto hsent hnov, rfl, ?_, ?_, ?_⟩
  · rw [heq]; exact hbuf
  · rw [heq]
  · rw [heq]

/-- Witness for c7_feature_rejection: the symlink fixture with all feature
flags off. -/
theorem c7_feature_rejection_witness :
    (ca_encoder_get_data (entryFixtureEncoder 0 1 lnkChildNode)).1 < 0 ∧
    ((lnkChildNode.stat.st_uid ≠ UINT16_MAX ∧ lnkChildNode.stat.st_uid ≠ UINT32_MAX ∧
      lnkChildNode.stat.st_gid ≠ UINT16_MAX ∧ lnkChildNode.stat.st_gid ≠ UINT32_MAX) →
     ¬((entryFixtureEncoder 0 1 lnkChildNode).feature_flags &&&
         CA_FORMAT_WITH_UID_GID_16BIT ≠ 0 ∧
       (lnkChildNode.stat.st_uid > UINT16_MAX ∨ lnkChildNode.stat.st_gid > UINT16_MAX)) →
     (ca_encoder_get_data (entryFixtureEncoder 0 1 lnkChildNode)).1 = -EPROTONOSUPPORT) ∧
    (ca_encoder_get_data (entryFixtureEncoder 0 1 lnkChildNode)).2.1 = none ∧
    (ca_encoder_get_data (entryFixtureEncoder 0 1 lnkChildNode)).2.2.buffer = [] ∧
    (ca_encoder_get_data (entryFixtureEncoder 0 1 lnkChildNode)).2.2.archive_offset =
      (entryFixtureEncoder 0 1 lnkChildNode).archive_offset ∧
    (ca_encoder_get_data (entryFixtureEncoder 0 1 lnkChildNode)).2.2.step_size =
      (entryFixtureEncoder 0 1 lnkChildNode).step_size :=
  c7_feature_rejection (entryFixtureEncoder 0 1 lnkChildNode) entryFixtureParent
    [108] lnkChildNode rfl (by decide) rfl rfl rfl rfl
    (Or.inl ⟨by decide, by decide⟩)

/-! ### Claim C8 -/

/-- Claim C8: for every mtime (as unsigned nanoseconds since the epoch, the
uint64 value of timespec_to_nsec) and every effective granularity g — the
normalizer only ever installs 1, 1000, 10^9 or 2*10^9 — the mtime emitted
in the ENTRY record equals (m / g) * g under integer division. -/
theorem c8_mtime_quantization
    (e : CaEncoder) (n : CaEncoderNode) (de : List Nat) (child : CaEncoderNode)
    (hbuf : e.buffer = [])
    (hde : ca_encoder_node_current_dirent n = some de)
    (hchild : ca_encoder_current_child_node e = some child)
    (hu1 : child.stat.st_uid ≠ UINT16_MAX) (hu2 : child.stat.st_uid ≠ UINT32_MAX)
    (hg1 : child.stat.st_gid ≠ UINT16_MAX) (hg2 : child.stat.st_gid ≠ UINT32_MAX)
    (h16 : ¬(e.feature_flags &&& CA_FORMAT_WITH_UID_GID_16BIT ≠ 0 ∧
             (child.stat.st_uid > UINT16_MAX ∨ child.stat.st_gid > UINT16_MAX)))
    (hsym : ¬(e.feature_flags &&& CA_FORMAT_WITH_SYMLINKS = 0 ∧
              S_ISLNK child.stat.st_mode = true))
    (hdev : ¬(e.feature_flags &&& CA_FORMAT_WITH_DEVICE_NODES = 0 ∧
              (S_ISBLK child.stat.st_mode = true ∨ S_ISCHR child.stat.st_mode = true)))
    (hfifo : ¬(e.feature_flags &&& CA_FORMAT_WITH_FIFOS = 0 ∧
               S_ISFIFO child.stat.st_mode = true))
    (hsock : ¬(e.feature_flags &&& CA_FORMAT_WITH_SOCKETS = 0 ∧
               S_ISSOCK child.stat.st_mode = true))
    (_hg : e.time_granularity = 1 ∨ e.time_granularity = 1000 ∨
           e.time_granularity = 1000000000 ∨ e.time_granularity = 2000000000) :
    (ca_encoder_get_entry_data e n).1 = 1 ∧
    readLe64 (ca_encoder_get_entry_data e n).2.buffer 40 =
      timespec_to_nsec child.stat.st_mtim / e.time_granularity * e.time_granularity := by
  rw [ca_encoder_get_entry_data_success e n de child hbuf hde hchild hu1 hu2 hg1 hg2
    h16 hsym hdev hfifo hsock]
  refine ⟨rfl, ?_⟩
  show readLe64 (ca_encoder_entry_buffer e.feature_flags e.time_granularity de child) 40 = _
  rw [entry_buffer_read_mtime, entry_mtime_mod]
  rfl

/-- Witness for c8_mtime_quantization: the regular-file fixture under
WITH_BEST with one-second granularity. -/
theorem c8_mtime_quantization_witness :
    (ca_encoder_get_entry_data (entryFixtureEncoder CA_FORMAT_WITH_BEST 1000000000 regChildNode)
      entryFixtureParent).1 = 1 ∧
    readLe64 ((ca_encoder_get_entry_data
      (entryFixtureEncoder CA_FORMAT_WITH_BEST 1000000000 regChildNode)
      entryFixtureParent).2.buffer) 40 =
      timespec_to_nsec regChildNode.stat.st_mtim /
        (entryFixtureEncoder CA_FORMAT_WITH_BEST 1000000000 regChildNode).time_granularity *
        (entryFixtureEncoder CA_FORMAT_WITH_BEST 1000000000 regChildNode).time_granularity :=
  c8_mtime_quantization (entryFixtureEncoder CA_FORMAT_WITH_BEST 1000000000 regChildNode)
    entryFixtureParent [108] regChildNode rfl rfl rfl (by decide) (by decide) (by decide)
    (by decide) (by decide) (by decide) (by decide) (by decide) (by decide)
    (Or.inr (Or.inr (Or.inl rfl)))

/-! ### Frame lemmas: the chunk producers touch only buffer and nodes -/

theorem frame_get_payload_data (e : CaEncoder) (n : CaEncoderNode) :
    (ca_encoder_get_payload_data e n).2.archive_offset = e.archive_offset ∧
    (ca_encoder_get_payload_data e n).2.state = e.state ∧
    (ca_encoder_get_payload_data e n).2.step_size = e.step_size ∧
    (ca_encoder_get_payload_data e n).2.payload_offset = e.payload_offset := by
  unfold ca_encoder_get_payload_data setNodeAt
  rcases hps : ca_encoder_node_get_payload_size n with ⟨r, size, n2⟩
  dsimp only
  split_ifs <;> exact ⟨rfl, rfl, rfl, rfl⟩

theorem frame_get_hello_data (e : CaEncoder) :
    (ca_encoder_get_hello_data e).2.archive_offset = e.archive_offset ∧
    (ca_encoder_get_hello_data e).2.state = e.state ∧
    (ca_encoder_get_hello_data e).2.step_size = e.step_size ∧
    (ca_encoder_get_hello_data e).2.payload_offset = e.payload_offset := by
  unfold ca_encoder_get_hello_data
  split
  all_goals exact ⟨rfl, rfl, rfl, rfl⟩

theorem frame_get_entry_data (e : CaEncoder) (n : CaEncoderNode) :
    (ca_encoder_get_entry_data e n).2.archive_offset = e.archive_offset ∧
    (ca_encoder_get_entry_data e n).2.state = e.state ∧
    (ca_encoder_get_entry_data e n).2.step_size = e.step_size ∧
    (ca_encoder_get_entry_data e n).2.payload_offset = e.payload_offset := by
  unfold ca_encoder_get_entry_data
  repeat' split
  all_goals exact ⟨rfl, rfl, rfl, rfl⟩

theorem frame_get_goodbye_data (e : CaEncoder) :
    (ca_encoder_get_goodbye_data e).2.archive_offset = e.archive_offset ∧
    (ca_encoder_get_goodbye_data e).2.state = e.state ∧
    (ca_encoder_get_goodbye_data e).2.step_size = e.step_size ∧
    (ca_encoder_get_goodbye_data e).2.payload_offset = e.payload_offset := by
  unfold ca_encoder_get_goodbye_data
  split
  all_goals exact ⟨rfl, rfl, rfl, rfl⟩

/-- Behavior of the final r-dispatch of ca_encoder_get_data (lines
877-891), given the frame facts of the chunk producer that ran. -/
theorem get_data_tail_frame (e1 : CaEncoder) (r : Int) {aoff poff : Nat}
    {st : CaEncoderState}
    (f1 : e1.archive_offset = aoff)
    (f2 : e1.state = st)
    (f3 : e1.payload_offset = poff)
    (hne : 0 ≤ r → st ≠ CaEncoderState.eof) :
    (if r < 0 then (r, none, e1)
     else if r = 0 then ((0 : Int), none, { e1 with step_size := 0 })
     else ((1 : Int), some e1.buffer,
           { e1 with step_size := e1.buffer.length })).2.2.archive_offset = aoff ∧
    (if r < 0 then (r, none, e1)
     else if r = 0 then ((0 : Int), none, { e1 with step_size := 0 })
     else ((1 : Int), some e1.buffer,
           { e1 with step_size := e1.buffer.length })).2.2.state = st ∧
    (if r < 0 then (r, none, e1)
     else if r = 0 then ((0 : Int), none, { e1 with step_size := 0 })
     else ((1 : Int), some e1.buffer,
           { e1 with step_size := e1.buffer.length })).2.2.payload_offset = poff ∧
    (0 ≤ (if r < 0 then (r, none, e1)
     else if r = 0 then ((0 : Int), none, { e1 with step_size := 0 })
     else ((1 : Int), some e1.buffer,
           { e1 with step_size := e1.buffer.length })).1 →
      (if r < 0 then (r, none, e1)
       else if r = 0 then ((0 : Int), none, { e1 with step_size := 0 })
       else ((1 : Int), some e1.buffer,
             { e1 with step_size := e1.buffer.length })).2.2.step_size =
        retLen (if r < 0 then (r, none, e1)
          else if r = 0 then ((0 : Int), none, { e1 with step_size := 0 })
          else ((1 : Int), some e1.buffer,
                { e1 with step_size := e1.buffer.length })).2.1 ∧
      st ≠ CaEncoderState.eof) := by
  split_ifs with h1 h2
  · exact ⟨f1, f2, f3, fun h => absurd h (not_le.mpr h1)⟩
  · exact ⟨f1, f2, f3, fun _ => ⟨rfl, hne (by omega)⟩⟩
  · exact ⟨f1, f2, f3, fun _ => ⟨rfl, hne (by omega)⟩⟩

/-- ca_encoder_get_data never changes the archive offset, the state or the
payload offset, and on success it records the returned chunk's length as
step_size; success is only possible outside the EOF state. -/
theorem ca_encoder_get_data_frame (e : CaEncoder) :
    (ca_encoder_get_data e).2.2.archive_offset = e.archive_offset ∧
    (ca_encoder_get_data e).2.2.state = e.state ∧
    (ca_encoder_get_data e).2.2.payload_offset = e.payload_offset ∧
    (0 ≤ (ca_encoder_get_data e).1 →
      (ca_encoder_get_data e).2.2.step_size = retLen (ca_encoder_get_data e).2.1 ∧
      e.state ≠ .eof) := by
  unfold ca_encoder_get_data
  cases hn : ca_encoder_current_node e with
  | none =>
    exact ⟨rfl, rfl, rfl, fun h => absurd (show (0 : Int) ≤ -EUNATCH from h) (by decide)⟩
  | some n =>
    dsimp only
    by_cases hk : (S_ISREG n.stat.st_mode || S_ISBLK n.stat.st_mode) = true
    · by_cases hst : e.state ≠ CaEncoderState.init
      · rw [if_pos hk, if_pos hst]
        exact get_data_tail_frame e (-ENOTTY) rfl rfl rfl
          (fun h => absurd h (by decide))
      · obtain ⟨f1, f2, f3, f4⟩ := frame_get_payload_data e n
        rcases hp : ca_encoder_get_payload_data e n with ⟨r, e1⟩
        rw [hp] at f1 f2 f3 f4
        rw [if_pos hk, if_neg hst]
        dsimp only
        push_neg at hst
        exact get_data_tail_frame e1 r f1 f2 f4
          (fun _ => by rw [hst]; decide)
    · by_cases hd : S_ISDIR n.stat.st_mode = true
      · rw [if_neg hk, if_pos hd]
        cases he : e.state with
        | hello =>
          obtain ⟨f1, f2, f3, f4⟩ := frame_get_hello_data e
          rcases hp : ca_encoder_get_hello_data e with ⟨r, e1⟩
          rw [hp] at f1 f2 f3 f4
          dsimp only
          exact get_data_tail_frame e1 r f1 (by first | exact f2 | exact f2.trans he)
            f4 (fun _ => by decide)
        | entry =>
          obtain ⟨f1, f2, f3, f4⟩ := frame_get_entry_data e n
          rcases hp : ca_encoder_get_entry_data e n with ⟨r, e1⟩
          rw [hp] at f1 f2 f3 f4
          dsimp only
          exact get_data_tail_frame e1 r f1 (by first | exact f2 | exact f2.trans he)
            f4 (fun _ => by decide)
        | goodbye =>
          obtain ⟨f1, f2, f3, f4⟩ := frame_get_goodbye_data e
          rcases hp : ca_encoder_get_goodbye_data e with ⟨r, e1⟩
          rw [hp] at f1 f2 f3 f4
          dsimp only
          exact get_data_tail_frame e1 r f1 (by first | exact f2 | exact f2.trans he)
            f4 (fun _ => by decide)
        | init =>
          dsimp only
          exact get_data_tail_frame e (-ENOTTY) rfl
            (by first | rfl | exact he) rfl (fun h => absurd h (by decide))
        | postChild =>
          dsimp only
          exact get_data_tail_frame e (-ENOTTY) rfl
            (by first | rfl | exact he) rfl (fun h => absurd h (by decide))
        | eof =>
          dsimp only
          exact get_data_tail_frame e (-ENOTTY) rfl
            (by first | rfl | exact he) rfl (fun h => absurd h (by decide))
      · rw [if_neg hk, if_neg hd]
        dsimp only
        exact get_data_tail_frame e (-ENOTTY) rfl rfl rfl
          (fun h => absurd h (by decide))

/-! ### Offset invariants of the step machine -/

theorem U64_pos : 0 < U64 := by
  unfold U64
  positivity

/-- The offset footprint of one pass through the step machinery below the
step_size consumption point: the archive offset is untouched, the step size
stays 0, and the payload offset is either untouched or reset to 0 by
enter_state. -/
abbrev Pres (e e' : CaEncoder) : Prop :=
  e'.archive_offset = e.archive_offset ∧ e'.step_size = 0 ∧
  (e'.payload_offset = e.payload_offset ∨ e'.payload_offset = 0) ∧
  e'.payload_offset < U64

theorem pres_trans {a b c : CaEncoder} (h1 : Pres a b) (h2 : Pres b c) : Pres a c := by
  obtain ⟨x1, x2, x3, x4⟩ := h1
  obtain ⟨y1, y2, y3, y4⟩ := h2
  refine ⟨y1.trans x1, y2, ?_, y4⟩
  rcases y3 with y | y
  · rcases x3 with x | x
    · exact Or.inl (y.trans x)
    · exact Or.inr (y.trans x)
  · exact Or.inr y

theorem frame_init_child (e e2 : CaEncoder) (h : ca_encoder_init_child e = some e2) :
    e2.archive_offset = e.archive_offset ∧ e2.step_size = e.step_size ∧
    e2.payload_offset = e.payload_offset := by
  unfold ca_encoder_init_child ca_encoder_forget_children at h
  dsimp only at h
  split_ifs at h
  injection h with h
  subst h
  exact ⟨rfl, rfl, rfl⟩

theorem frame_open_child (e : CaEncoder) (de : List Nat) :
    (ca_encoder_open_child e de).2.archive_offset = e.archive_offset ∧
    (ca_encoder_open_child e de).2.step_size = e.step_size ∧
    (ca_encoder_open_child e de).2.payload_offset = e.payload_offset := by
  unfold ca_encoder_open_child
  cases hcn : ca_encoder_current_node e with
  | none => exact ⟨rfl, rfl, rfl⟩
  | some n =>
    dsimp only
    split_ifs with h1 h2
    all_goals try exact ⟨rfl, rfl, rfl⟩
    split
    · exact ⟨rfl, rfl, rfl⟩
    · rename_i e2 heq
      obtain ⟨i1, i2, i3⟩ := frame_init_child e e2 heq
      split
      · exact ⟨i1, i2, i3⟩
      · split_ifs <;> exact ⟨i1, i2, i3⟩

theorem frame_enter_child (e : CaEncoder) :
    (ca_encoder_enter_child e).2.archive_offset = e.archive_offset ∧
    (ca_encoder_enter_child e).2.step_size = e.step_size ∧
    (ca_encoder_enter_child e).2.payload_offset = e.payload_offset := by
  unfold ca_encoder_enter_child
  repeat' split
  all_goals exact ⟨rfl, rfl, rfl⟩

theorem frame_leave_child (e : CaEncoder) :
    (ca_encoder_leave_child e).2.archive_offset = e.archive_offset ∧
    (ca_encoder_leave_child e).2.step_size = e.step_size ∧
    (ca_encoder_leave_child e).2.payload_offset = e.payload_offset := by
  unfold ca_encoder_leave_child
  split
  all_goals exact ⟨rfl, rfl, rfl⟩

theorem pres_step_regular (e : CaEncoder) (n : CaEncoderNode)
    (hs : e.step_size = 0) (hp : e.payload_offset < U64) :
    Pres e (ca_encoder_step_regular e n).2 := by
  unfold ca_encoder_step_regular ca_encoder_enter_state setNodeAt
  rcases hps : ca_encoder_node_get_payload_size n with ⟨r, size, n2⟩
  dsimp only
  split_ifs
  · exact ⟨rfl, hs, Or.inl rfl, hp⟩
  · exact ⟨rfl, rfl, Or.inr rfl, U64_pos⟩
  · exact ⟨rfl, hs, Or.inl rfl, hp⟩

theorem pres_step_dir_hello (e : CaEncoder) (n : CaEncoderNode)
    (hs : e.step_size = 0) (hp : e.payload_offset < U64) :
    Pres e (ca_encoder_step_dir_hello e n).2 := by
  unfold ca_encoder_step_dir_hello
  cases ca_encoder_node_current_dirent n with
  | none => exact ⟨rfl, rfl, Or.inr rfl, U64_pos⟩
  | some de =>
    obtain ⟨f1, f2, f3⟩ := frame_open_child e de
    dsimp only
    split_ifs
    · exact ⟨f1, f2.trans hs, Or.inl f3, lt_of_eq_of_lt f3 hp⟩
    · exact ⟨f1, rfl, Or.inr rfl, U64_pos⟩

/-- The three step functions never touch the archive offset below the
consumption point, keep step_size at 0, and only ever reset the payload
offset; this is the for(;;) loop and recursion invariant of
ca_encoder_step. -/
theorem step_machinery_pres (fuel : Nat) :
    (∀ e : CaEncoder, e.step_size = 0 → e.archive_offset < U64 →
      e.payload_offset < U64 → Pres e (ca_encoder_step fuel e).2) ∧
    (∀ e : CaEncoder, e.step_size = 0 → e.archive_offset < U64 →
      e.payload_offset < U64 → Pres e (ca_encoder_step_loop fuel e).2) ∧
    (∀ (e : CaEncoder) (n : CaEncoderNode), e.step_size = 0 →
      e.archive_offset < U64 → e.payload_offset < U64 →
      Pres e (ca_encoder_step_directory fuel e n).2) := by
  induction fuel with
  | zero =>
    refine ⟨?_, ?_, ?_⟩
    · intro e hs _ hp
      exact ⟨rfl, hs, Or.inl rfl, hp⟩
    · intro e hs _ hp
      exact ⟨rfl, hs, Or.inl rfl, hp⟩
    · intro e n hs _ hp
      exact ⟨rfl, hs, Or.inl rfl, hp⟩
  | succ f ih =>
    obtain ⟨ihs, ihl, ihd⟩ := ih
    refine ⟨?_, ?_, ?_⟩
    · -- ca_encoder_step (f+1)
      intro e hs ha hp
      simp only [ca_encoder_step]
      by_cases he : e.state = CaEncoderState.eof
      · rw [if_pos he]
        exact ⟨rfl, hs, Or.inl rfl, hp⟩
      · rw [if_neg he]
        refine pres_trans ?_ (ihl _ rfl (Nat.mod_lt _ U64_pos) (Nat.mod_lt _ U64_pos))
        exact ⟨by simp [hs, Nat.mod_eq_of_lt ha], rfl,
          Or.inl (by simp [hs, Nat.mod_eq_of_lt hp]), Nat.mod_lt _ U64_pos⟩
    · -- ca_encoder_step_loop (f+1)
      intro e hs ha hp
      simp only [ca_encoder_step_loop]
      cases hn : ca_encoder_current_node e with
      | none => exact ⟨rfl, hs, Or.inl rfl, hp⟩
      | some n =>
        dsimp only
        set D := (if (S_ISREG n.stat.st_mode || S_ISBLK n.stat.st_mode) = true then
            ca_encoder_step_regular e n
          else if S_ISDIR n.stat.st_mode = true then
            ca_encoder_step_directory f e n
          else (-ENOTTY, e)) with hD
        have hdisp : Pres e D.2 := by
          rw [hD]
          split_ifs with h1 h2
          · exact pres_step_regular e n hs hp
          · exact ihd e n hs ha hp
          · exact ⟨rfl, hs, Or.inl rfl, hp⟩
        obtain ⟨l1, l2, l3⟩ := frame_leave_child D.2
        by_cases hr : D.1 ≠ CA_ENCODER_FINISHED
        · rw [if_pos hr]
          exact hdisp
        · rw [if_neg hr]
          by_cases hr2 : (ca_encoder_leave_child D.2).1 = 0
          · rw [if_pos hr2]
            exact ⟨l1.trans hdisp.1, l2.trans hdisp.2.1,
              hdisp.2.2.1.imp (fun h => l3.trans h) (fun h => l3.trans h),
              lt_of_eq_of_lt l3 hdisp.2.2.2⟩
          · rw [if_neg hr2]
            refine pres_trans ?_ (ihl _ rfl ?_ U64_pos)
            · exact ⟨l1.trans hdisp.1, rfl, Or.inr rfl, U64_pos⟩
            · exact lt_of_eq_of_lt (l1.trans hdisp.1) ha
    · -- ca_encoder_step_directory (f+1)
      intro e n hs ha hp
      simp only [ca_encoder_step_directory, setNodeAt]
      by_cases hr : (ca_encoder_node_read_dirents n).1 < 0
      · rw [if_pos hr]
        exact ⟨rfl, hs, Or.inl rfl, hp⟩
      · rw [if_neg hr]
        split
        · exact ⟨rfl, rfl, Or.inr rfl, U64_pos⟩
        · split
          · exact ⟨rfl, hs, Or.inl rfl, hp⟩
          · split_ifs with hkind hr2
            · exact ⟨(frame_enter_child _).1,
                ((frame_enter_child _).2.1).trans hs,
                Or.inl (frame_enter_child _).2.2,
                lt_of_eq_of_lt (frame_enter_child _).2.2 hp⟩
            · refine pres_trans ?_ (ihs _ rfl ?_ U64_pos)
              · exact ⟨(frame_enter_child _).1, rfl, Or.inr rfl, U64_pos⟩
              · exact lt_of_eq_of_lt (frame_enter_child _).1 ha
            · exact pres_step_dir_hello _ _ hs hp
        · exact pres_step_dir_hello _ _ hs hp
        · exact pres_step_dir_hello _ _ hs hp
        · exact ⟨rfl, rfl, Or.inr rfl, U64_pos⟩
        · exact ⟨rfl, hs, Or.inl rfl, hp⟩

/-- A successful (or error-free-so-far) step consumes the pending step_size
into the archive offset exactly once, and leaves step_size at 0. -/
theorem ca_encoder_step_offsets (fuel : Nat) (e : CaEncoder)
    (h0 : e.state = .eof → e.step_size = 0)
    (ha : e.archive_offset < U64) (hp : e.payload_offset < U64)
    (hr : 0 ≤ (ca_encoder_step fuel e).1) :
    (ca_encoder_step fuel e).2.archive_offset = (e.archive_offset + e.step_size) % U64 ∧
    (ca_encoder_step fuel e).2.step_size = 0 ∧
    (ca_encoder_step fuel e).2.archive_offset < U64 ∧
    (ca_encoder_step fuel e).2.payload_offset < U64 := by
  cases fuel with
  | zero =>
    exact absurd hr (show ¬(0 : Int) ≤ CA_ENCODER_OUT_OF_FUEL by decide)
  | succ f =>
    by_cases he : e.state = CaEncoderState.eof
    · have hs := h0 he
      simp only [ca_encoder_step, if_pos he]
      refine ⟨?_, hs, ha, hp⟩
      rw [hs, Nat.add_zero, Nat.mod_eq_of_lt ha]
    · simp only [ca_encoder_step, if_neg he]
      have hM := (step_machinery_pres f).2.1
        { e with payload_offset := (e.payload_offset + e.step_size) % U64,
                 archive_offset := (e.archive_offset + e.step_size) % U64,
                 step_size := 0 }
        rfl (Nat.mod_lt _ U64_pos) (Nat.mod_lt _ U64_pos)
      exact ⟨hM.1, hM.2.1, lt_of_eq_of_lt hM.1 (Nat.mod_lt _ U64_pos), hM.2.2.2⟩

/-- When the pending step_size is 0, a step never moves the archive offset
and never increases the payload offset (enter_state may reset it to 0). -/
theorem ca_encoder_step_zero_consume (fuel : Nat) (e : CaEncoder)
    (hs : e.step_size = 0) (ha : e.archive_offset < U64) (hp : e.payload_offset < U64) :
    (ca_encoder_step fuel e).2.archive_offset = e.archive_offset ∧
    (ca_encoder_step fuel e).2.payload_offset ≤ e.payload_offset := by
  obtain ⟨m1, m2, m3, m4⟩ := (step_machinery_pres fuel).1 e hs ha hp
  refine ⟨m1, ?_⟩
  rcases m3 with h | h
  · rw [h]
  · rw [h]
    exact Nat.zero_le _

/-- Round invariant: across any number of successful step/get_data rounds,
archive_offset plus the still-pending step_size grows by exactly the sum of
the handed-back chunk lengths (as uint64 values). -/
theorem ca_encoder_drive_invariant (F : Nat) :
    ∀ (k : Nat) (e e2 : CaEncoder) (ls : List Nat),
    ca_encoder_drive F k e = some (ls, e2) →
    e.archive_offset < U64 → e.payload_offset < U64 →
    (e.state = .eof → e.step_size = 0) →
    (e2.archive_offset + e2.step_size) % U64 =
      (e.archive_offset + e.step_size + ls.sum) % U64 ∧
    e2.archive_offset < U64 ∧ e2.payload_offset < U64 ∧
    (e2.state = .eof → e2.step_size = 0) := by
  intro k
  induction k with
  | zero =>
    intro e e2 ls h ha hp h0
    simp only [ca_encoder_drive, Option.some.injEq, Prod.mk.injEq] at h
    obtain ⟨hls, he2⟩ := h
    subst hls
    subst he2
    exact ⟨by simp, ha, hp, h0⟩
  | succ k ih =>
    intro e e2 ls h ha hp h0
    simp only [ca_encoder_drive] at h
    by_cases hr : (ca_encoder_step F e).1 < 0
    · rw [if_pos hr] at h
      exact absurd h (by simp)
    · rw [if_neg hr] at h
      by_cases hr2 : (ca_encoder_get_data (ca_encoder_step F e).2).1 < 0
      · rw [if_pos hr2] at h
        exact absurd h (by simp)
      · rw [if_neg hr2] at h
        obtain ⟨s1, s2, s3, s4⟩ :=
          ca_encoder_step_offsets F e h0 ha hp (not_lt.1 hr)
        obtain ⟨g1, g2, g3, g4⟩ := ca_encoder_get_data_frame (ca_encoder_step F e).2
        obtain ⟨gs, gne⟩ := g4 (not_lt.1 hr2)
        cases hd : ca_encoder_drive F k (ca_encoder_get_data (ca_encoder_step F e).2).2.2 with
        | none =>
          rw [hd] at h
          exact absurd h (by simp)
        | some p =>
          rcases p with ⟨ls3, e3⟩
          rw [hd] at h
          simp only [Option.some.injEq, Prod.mk.injEq] at h
          obtain ⟨hls, he2⟩ := h
          subst he2
          obtain ⟨i1, i2, i3, i4⟩ := ih _ _ _ hd
            (by rw [g1]; exact s3) (by rw [g3]; exact s4)
            (fun hbad => absurd (g2.symm.trans hbad) gne)
          refine ⟨?_, i2, i3, i4⟩
          rw [← hls, i1, g1, s1, gs, List.sum_cons]
          conv_lhs => rw [Nat.add_assoc]
          rw [Nat.mod_add_mod]


/-- C10: for a regular-file or block-device current node in the initial
(payload-emitting) state whose payload offset has reached the payload size,
get_data succeeds with return value 0, hands back no buffer, records
step_size 0, and any following step advances neither the archive offset nor
the payload offset. -/
theorem c10_payload_eof (e : CaEncoder) (n : CaEncoderNode)
    (hn : ca_encoder_current_node e = some n)
    (hk : (S_ISREG n.stat.st_mode || S_ISBLK n.stat.st_mode) = true)
    (hst : e.state = .init)
    (hr0 : (ca_encoder_node_get_payload_size n).1 = 0)
    (hsz : (ca_encoder_node_get_payload_size n).2.1 ≤ e.payload_offset)
    (ha : e.archive_offset < U64) (hp : e.payload_offset < U64) :
    ca_encoder_get_data e =
      (0, none,
        { setNodeAt e e.node_idx (ca_encoder_node_get_payload_size n).2.2 with
            step_size := 0 }) ∧
    ∀ F, (ca_encoder_step F (ca_encoder_get_data e).2.2).2.archive_offset =
           e.archive_offset ∧
         (ca_encoder_step F (ca_encoder_get_data e).2.2).2.payload_offset ≤
           e.payload_offset := by
  have hrr : ¬ ((ca_encoder_node_get_payload_size n).1 < 0) := by
    rw [hr0]; decide
  have hge : (setNodeAt e e.node_idx (ca_encoder_node_get_payload_size n).2.2).payload_offset ≥
      (ca_encoder_node_get_payload_size n).2.1 := by
    simpa [setNodeAt] using hsz
  have h1 : ca_encoder_get_data e =
      (0, none,
        { setNodeAt e e.node_idx (ca_encoder_node_get_payload_size n).2.2 with
            step_size := 0 }) := by
    simp only [ca_encoder_get_data, hn, hk, hst, ca_encoder_get_payload_data]
    simp only [if_pos hge, if_neg hrr]
    simp
  have ea : ({ setNodeAt e e.node_idx (ca_encoder_node_get_payload_size n).2.2 with
      step_size := 0 } : CaEncoder).archive_offset = e.archive_offset := by
    simp [setNodeAt]
  have ep : ({ setNodeAt e e.node_idx (ca_encoder_node_get_payload_size n).2.2 with
      step_size := 0 } : CaEncoder).payload_offset = e.payload_offset := by
    simp [setNodeAt]
  refine ⟨h1, fun F => ?_⟩
  rw [h1]
  obtain ⟨z1, z2⟩ := ca_encoder_step_zero_consume F
    ({ setNodeAt e e.node_idx (ca_encoder_node_get_payload_size n).2.2 with
        step_size := 0 }) rfl (by rw [ea]; exact ha) (by rw [ep]; exact hp)
  exact ⟨z1.trans ea, le_trans z2 (le_of_eq ep)⟩

theorem c10_payload_eof_witness :
    ca_encoder_current_node regRootBased = some regRootNode ∧
    (ca_encoder_node_get_payload_size regRootNode).2.1 ≤ regRootBased.payload_offset ∧
    (ca_encoder_get_data regRootBased =
      (0, none,
        { setNodeAt regRootBased regRootBased.node_idx
            (ca_encoder_node_get_payload_size regRootNode).2.2 with
            step_size := 0 }) ∧
     ∀ F, (ca_encoder_step F (ca_encoder_get_data regRootBased).2.2).2.archive_offset =
            regRootBased.archive_offset ∧
          (ca_encoder_step F (ca_encoder_get_data regRootBased).2.2).2.payload_offset ≤
            regRootBased.payload_offset) :=
  ⟨rfl, by decide,
   c10_payload_eof regRootBased regRootNode rfl rfl rfl rfl (by decide)
     (by decide) (by decide)⟩

/-- C9: offset accounting for the step/get_data loop.  (i) Starting from a
freshly based encoder (archive offset 0, no pending step size), after any
number of successful step/get_data rounds followed by one further
successful step, the archive offset equals the uint64 sum of the chunk
lengths handed back so far.  (ii) get_data itself never moves the archive
offset.  (iii) As long as the uint64 accumulator has not wrapped, a
successful step never decreases the archive offset. -/
theorem c9_offset_accounting :
    (∀ (F k : Nat) (e0 eN : CaEncoder) (ls : List Nat),
      e0.archive_offset = 0 → e0.step_size = 0 → e0.payload_offset < U64 →
      ca_encoder_drive F k e0 = some (ls, eN) →
      0 ≤ (ca_encoder_step F eN).1 →
      (ca_encoder_step F eN).2.archive_offset = ls.sum % U64) ∧
    (∀ e : CaEncoder,
      (ca_encoder_get_data e).2.2.archive_offset = e.archive_offset) ∧
    (∀ (F : Nat) (e : CaEncoder),
      (e.state = .eof → e.step_size = 0) →
      e.archive_offset + e.step_size < U64 → e.payload_offset < U64 →
      0 ≤ (ca_encoder_step F e).1 →
      e.archive_offset ≤ (ca_encoder_step F e).2.archive_offset) := by
  refine ⟨?_, ?_, ?_⟩
  · intro F k e0 eN ls h0a h0s h0p hd hr
    have ha0 : e0.archive_offset < U64 := by rw [h0a]; exact U64_pos
    obtain ⟨i1, i2, i3, i4⟩ :=
      ca_encoder_drive_invariant F k e0 eN ls hd ha0 h0p (fun _ => h0s)
    obtain ⟨s1, s2, s3, s4⟩ := ca_encoder_step_offsets F eN i4 i2 i3 hr
    rw [s1, i1, h0a, h0s]
    simp
  · intro e
    exact (ca_encoder_get_data_frame e).1
  · intro F e h0 ha hp hr
    obtain ⟨s1, s2, s3, s4⟩ := ca_encoder_step_offsets F e h0
      (lt_of_le_of_lt (Nat.le_add_right _ _) ha) hp hr
    rw [s1, Nat.mod_eq_of_lt ha]
    exact Nat.le_add_right _ _

theorem c9_offset_accounting_witness :
    ca_encoder_drive 100 1 emptyDirBased =
      some ([32], (ca_encoder_get_data (ca_encoder_step 100 emptyDirBased).2).2.2) ∧
    0 ≤ (ca_encoder_step 100
          ((ca_encoder_get_data (ca_encoder_step 100 emptyDirBased).2).2.2)).1 ∧
    (ca_encoder_step 100
          ((ca_encoder_get_data (ca_encoder_step 100 emptyDirBased).2).2.2)).2.archive_offset =
      [32].sum % U64 :=
  ⟨rfl, by decide,
   c9_offset_accounting.1 100 1 emptyDirBased
     ((ca_encoder_get_data (ca_encoder_step 100 emptyDirBased).2).2.2) [32]
     rfl rfl (by decide) rfl (by decide)⟩

lemma ca_encoder_step_succ (fuel : Nat) (e : CaEncoder) (hne : ¬ e.state = .eof) :
    ca_encoder_step (fuel + 1) e =
      ca_encoder_step_loop fuel
        { e with payload_offset := (e.payload_offset + e.step_size) % U64,
                 archive_offset := (e.archive_offset + e.step_size) % U64,
                 step_size := 0 } := by
  simp [ca_encoder_step, hne]

lemma ca_encoder_step_loop_dir (fuel : Nat) (e : CaEncoder) (n : CaEncoderNode)
    (hn : ca_encoder_current_node e = some n)
    (hreg : S_ISREG n.stat.st_mode = false)
    (hblk : S_ISBLK n.stat.st_mode = false)
    (hd : S_ISDIR n.stat.st_mode = true) (r : Int) (e2 : CaEncoder)
    (hdir : ca_encoder_step_directory fuel e n = (r, e2))
    (hr : r ≠ CA_ENCODER_FINISHED) :
    ca_encoder_step_loop (fuel + 1) e = (r, e2) := by
  simp only [ca_encoder_step_loop, hn, hreg, hblk, hd, hdir]
  simp [hr]

lemma ca_encoder_step_loop_dir_finished_root (fuel : Nat) (e : CaEncoder)
    (n : CaEncoderNode) (hn : ca_encoder_current_node e = some n)
    (hreg : S_ISREG n.stat.st_mode = false)
    (hblk : S_ISBLK n.stat.st_mode = false)
    (hd : S_ISDIR n.stat.st_mode = true) (e2 : CaEncoder)
    (hdir : ca_encoder_step_directory fuel e n = (CA_ENCODER_FINISHED, e2))
    (hroot : e2.node_idx = 0) :
    ca_encoder_step_loop (fuel + 1) e =
      (CA_ENCODER_FINISHED, ca_encoder_forget_children e2) := by
  simp only [ca_encoder_step_loop, hn, hreg, hblk, hd, hdir]
  simp [ca_encoder_leave_child, hroot]

lemma dirRootBased_eq (st : Stat) (hd : S_ISDIR st.st_mode = true) :
    dirRootBased st = dirBase st := by
  simp [dirRootBased, ca_encoder_set_base_fd, ca_encoder_new, dirRootFs,
    FsObject.stat, hd, dirBase, dirNode0]

lemma dir_round1_dir (st : Stat) (hd : S_ISDIR st.st_mode = true) (fuel : Nat) :
    ca_encoder_step_directory (fuel + 1) (dirBase st) (dirNode0 st) =
      (CA_ENCODER_DATA, dirE1 st) := by
  simp [ca_encoder_step_directory, ca_encoder_node_read_dirents, dirBase,
    dirNode0, dirE1, dirNodeScanned, ca_encoder_enter_state, setNodeAt,
    strcmpSort, scandir_filter, FsObject.entries, dirRootFs, hd]

lemma dir_round2_dir (st : Stat) (fuel : Nat) :
    ca_encoder_step_directory (fuel + 1) (dirE1c st) (dirNodeScanned st) =
      (CA_ENCODER_DATA, dirE2 st) := by
  simp [ca_encoder_step_directory, ca_encoder_node_read_dirents, dirE1c,
    dirE1, dirBase, dirNode0, dirNodeScanned, ca_encoder_step_dir_hello,
    ca_encoder_node_current_dirent, ca_encoder_enter_state, setNodeAt,
    dirE2]

lemma dir_round3_dir (st : Stat) (fuel : Nat) :
    ca_encoder_step_directory (fuel + 1) (dirE2c st) (dirNodeScanned st) =
      (CA_ENCODER_FINISHED, dirE3 st) := by
  simp [ca_encoder_step_directory, ca_encoder_node_read_dirents, dirE2c,
    dirE2, dirE1, dirBase, dirNode0, dirNodeScanned,
    ca_encoder_enter_state, setNodeAt, dirE3]

lemma dir_gd1 (st : Stat) (hd : S_ISDIR st.st_mode = true)
    (hreg : S_ISREG st.st_mode = false) (hblk : S_ISBLK st.st_mode = false) :
    ca_encoder_get_data (dirE1 st) =
      (1, some (ca_encoder_hello_buffer CA_FORMAT_WITH_BEST), dirE1g st) := by
  simp [ca_encoder_get_data, ca_encoder_current_node, dirE1, dirE1g, dirBase,
    dirNodeScanned, dirNode0, hd, hreg, hblk, ca_encoder_get_hello_data,
    ca_encoder_hello_buffer, le64Bytes]

lemma dir_gd2 (st : Stat) (hd : S_ISDIR st.st_mode = true)
    (hreg : S_ISREG st.st_mode = false) (hblk : S_ISBLK st.st_mode = false) :
    ca_encoder_get_data (dirE2 st) =
      (1, some ca_encoder_goodbye_buffer, dirE2g st) := by
  simp [ca_encoder_get_data, ca_encoder_current_node, dirE2, dirE2g, dirE1,
    dirBase, dirNodeScanned, dirNode0, hd, hreg, hblk,
    ca_encoder_get_goodbye_data, ca_encoder_goodbye_buffer, le64Bytes]

lemma dir_step1 (st : Stat) (hd : S_ISDIR st.st_mode = true)
    (hreg : S_ISREG st.st_mode = false) (hblk : S_ISBLK st.st_mode = false) :
    ca_encoder_step 100 (dirBase st) = (CA_ENCODER_DATA, dirE1 st) := by
  rw [show (100 : Nat) = 99 + 1 from rfl,
     ca_encoder_step_succ 99 _ (by simp [dirBase])]
  have hc : ({ dirBase st with
      payload_offset := ((dirBase st).payload_offset + (dirBase st).step_size) % U64,
      archive_offset := ((dirBase st).archive_offset + (dirBase st).step_size) % U64,
      step_size := 0 } : CaEncoder) = dirBase st := by
    simp [dirBase, U64]
  rw [hc, show (99 : Nat) = 98 + 1 from rfl]
  exact ca_encoder_step_loop_dir 98 _ _ (by simp [dirBase, ca_encoder_current_node])
    hreg hblk hd _ _ (dir_round1_dir st hd 97) (by decide)

lemma dir_step2 (st : Stat) (hd : S_ISDIR st.st_mode = true)
    (hreg : S_ISREG st.st_mode = false) (hblk : S_ISBLK st.st_mode = false) :
    ca_encoder_step 100 (dirE1g st) = (CA_ENCODER_DATA, dirE2 st) := by
  rw [show (100 : Nat) = 99 + 1 from rfl,
     ca_encoder_step_succ 99 _ (by simp [dirE1g, dirE1, dirBase])]
  have hc : ({ dirE1g st with
      payload_offset := ((dirE1g st).payload_offset + (dirE1g st).step_size) % U64,
      archive_offset := ((dirE1g st).archive_offset + (dirE1g st).step_size) % U64,
      step_size := 0 } : CaEncoder) = dirE1c st := by
    simp [dirE1g, dirE1c, dirE1, dirBase, U64]
  rw [hc, show (99 : Nat) = 98 + 1 from rfl]
  exact ca_encoder_step_loop_dir 98 _ _
    (by simp [dirE1c, dirE1, dirBase, ca_encoder_current_node])
    hreg hblk hd _ _ (dir_round2_dir st 97) (by decide)

lemma dir_step3 (st : Stat) (hd : S_ISDIR st.st_mode = true)
    (hreg : S_ISREG st.st_mode = false) (hblk : S_ISBLK st.st_mode = false) :
    ca_encoder_step 100 (dirE2g st) = (CA_ENCODER_FINISHED, dirE3 st) := by
  rw [show (100 : Nat) = 99 + 1 from rfl,
     ca_encoder_step_succ 99 _ (by simp [dirE2g, dirE2, dirE1, dirBase])]
  have hc : ({ dirE2g st with
      payload_offset := ((dirE2g st).payload_offset + (dirE2g st).step_size) % U64,
      archive_offset := ((dirE2g st).archive_offset + (dirE2g st).step_size) % U64,
      step_size := 0 } : CaEncoder) = dirE2c st := by
    simp [dirE2g, dirE2c, dirE2, dirE1, dirBase, U64]
  rw [hc, show (99 : Nat) = 98 + 1 from rfl]
  have hfin := ca_encoder_step_loop_dir_finished_root 98 _ _
    (by simp [dirE2c, dirE2, dirE1, dirBase, ca_encoder_current_node])
    hreg hblk hd _ (dir_round3_dir st 97)
    (by simp [dirE3, dirE1, dirBase])
  rw [hfin]
  simp [ca_encoder_forget_children, dirE3, dirE1, dirBase]

lemma ca_encoder_run_round (F k : Nat) (e eS eG : CaEncoder) (r : Int)
    (ret : Option (List Nat)) (hs : ca_encoder_step F e = (r, eS))
    (hr0 : ¬ r = CA_ENCODER_FINISHED) (hr1 : ¬ r < 0)
    (hg : ca_encoder_get_data eS = (1, ret, eG)) :
    ca_encoder_run F (k + 1) e =
      (match ca_encoder_run F k eG with
       | none => none
       | some ls => some (ret.getD [] :: ls)) := by
  simp only [ca_encoder_run, hs, hg]
  simp [hr0, hr1]

lemma ca_encoder_run_finish (F k : Nat) (e eS : CaEncoder)
    (hs : ca_encoder_step F e = (CA_ENCODER_FINISHED, eS)) :
    ca_encoder_run F (k + 1) e = some [] := by
  simp [ca_encoder_run, hs]

lemma dir_run (st : Stat) (hd : S_ISDIR st.st_mode = true)
    (hreg : S_ISREG st.st_mode = false) (hblk : S_ISBLK st.st_mode = false) :
    ca_encoder_run 100 10 (dirRootBased st) =
      some [ca_encoder_hello_buffer CA_FORMAT_WITH_BEST,
            ca_encoder_goodbye_buffer] := by
  rw [dirRootBased_eq st hd, show (10 : Nat) = 9 + 1 from rfl,
    ca_encoder_run_round 100 9 _ _ _ _ _ (dir_step1 st hd hreg hblk)
      (by decide) (by decide) (dir_gd1 st hd hreg hblk),
    show (9 : Nat) = 8 + 1 from rfl,
    ca_encoder_run_round 100 8 _ _ _ _ _ (dir_step2 st hd hreg hblk)
      (by decide) (by decide) (dir_gd2 st hd hreg hblk),
    show (8 : Nat) = 7 + 1 from rfl,
    ca_encoder_run_finish 100 7 _ _ (dir_step3 st hd hreg hblk)]
  simp

/-- C1 (counterexample): encoding an empty directory hands back a first
(HELLO) chunk of 32 bytes, not 24, and a total archive of 56 bytes, not
48. -/
theorem c1_counterexample :
    ca_encoder_run 100 10 emptyDirBased =
      some [ca_encoder_hello_buffer CA_FORMAT_WITH_BEST,
            ca_encoder_goodbye_buffer] ∧
    (ca_encoder_hello_buffer CA_FORMAT_WITH_BEST).length = 32 ∧
    ¬ (ca_encoder_hello_buffer CA_FORMAT_WITH_BEST).length = 24 ∧
    (ca_encoder_hello_buffer CA_FORMAT_WITH_BEST).length +
      ca_encoder_goodbye_buffer.length = 56 ∧
    ¬ (ca_encoder_hello_buffer CA_FORMAT_WITH_BEST).length +
        ca_encoder_goodbye_buffer.length = 48 := by
  refine ⟨?_, by decide, by decide, by decide, by decide⟩
  have h := dir_run emptyDirStat (by decide) (by decide) (by decide)
  have he : emptyDirBased = dirRootBased emptyDirStat := rfl
  rw [he, h]

/-- C1: for an encoder whose root is a directory with no entries, the
complete archive is exactly a HELLO record of 32 bytes followed by a
GOODBYE record of 24 bytes (16-byte header plus one 8-byte table entry),
for a total archive length of 56 bytes, after which step returns
FINISHED. -/
theorem c1_empty_dir_archive (st : Stat) (hd : S_ISDIR st.st_mode = true) :
    (ca_encoder_set_base_fd ca_encoder_new 3 (dirRootFs st)).1 = 0 ∧
    ca_encoder_run 100 10 (dirRootBased st) =
      some [ca_encoder_hello_buffer CA_FORMAT_WITH_BEST,
            ca_encoder_goodbye_buffer] ∧
    (ca_encoder_hello_buffer CA_FORMAT_WITH_BEST).length = 32 ∧
    ca_encoder_goodbye_buffer.length = 24 ∧
    (ca_encoder_hello_buffer CA_FORMAT_WITH_BEST).length +
      ca_encoder_goodbye_buffer.length = 56 ∧
    (ca_encoder_step 100 (dirE2g st)).1 = CA_ENCODER_FINISHED := by
  have hfmt := sifmt_of_isdir hd
  have hreg : S_ISREG st.st_mode = false := not_isreg_of_fmt hfmt (by decide)
  have hblk : S_ISBLK st.st_mode = false := not_isblk_of_fmt hfmt (by decide)
  refine ⟨?_, dir_run st hd hreg hblk, by decide, by decide, by decide, ?_⟩
  · simp [ca_encoder_set_base_fd, ca_encoder_new, dirRootFs, FsObject.stat,
      hd, hreg, hblk]
  · rw [dir_step3 st hd hreg hblk]

theorem c1_empty_dir_archive_witness :
    S_ISDIR emptyDirStat.st_mode = true ∧
    ((ca_encoder_set_base_fd ca_encoder_new 3 (dirRootFs emptyDirStat)).1 = 0 ∧
     ca_encoder_run 100 10 (dirRootBased emptyDirStat) =
       some [ca_encoder_hello_buffer CA_FORMAT_WITH_BEST,
             ca_encoder_goodbye_buffer] ∧
     (ca_encoder_hello_buffer CA_FORMAT_WITH_BEST).length = 32 ∧
     ca_encoder_goodbye_buffer.length = 24 ∧
     (ca_encoder_hello_buffer CA_FORMAT_WITH_BEST).length +
       ca_encoder_goodbye_buffer.length = 56 ∧
     (ca_encoder_step 100 (dirE2g emptyDirStat)).1 = CA_ENCODER_FINISHED) :=
  ⟨by decide, c1_empty_dir_archive emptyDirStat (by decide)⟩

end Casync
